import Mathlib

/-!
Verification development for the piksi_firmware signal-tracking core
(src/track.c and src/cw.c).

The C sources are shallowly embedded:

* machine integers are `Nat`/`Int` with explicit wrapping (`% 2^32`,
  `% 2^64`, signed wrap helpers) exactly where the C types wrap;
* C floating-point values that only flow through external numeric engines
  (loop filter, C/N0 estimator, alias detector, navigation-message decoder
  of libswiftnav) are modelled as exact rationals; none of the claims
  proved here depends on floating-point rounding;
* the external numeric engines themselves are out of scope of the spec
  ("numeric engines consumed by the channel update with documented call
  contracts"); each call to one of them is modelled as an oracle value
  supplied in an environment record `UpdateEnv`, universally quantified in
  every theorem, so each theorem holds for every possible behaviour of the
  external engines;
* hardware register writes (`nap_track_update_wr_blocking`, ...) and log
  messages are modelled as an explicit event trace returned by each
  operation;
* declarations of track.h / cw.h / board headers are not under src/; the
  struct layouts are reconstructed from their uses in track.c / cw.c, and
  the few constants they define (`TOW_INVALID`, the NAP fixed-point unit
  scales, `SPECTRUM_LEN`) are modelled from the spec, marked below.
-/

namespace Piksi

/-- Wrap a natural number to C `u32` range (uint32_t arithmetic). -/
def u32wrap (x : Nat) : Nat := x % 2^32

/-- Wrap a natural number to C `u64` range (uint64_t arithmetic). -/
def u64wrap (x : Nat) : Nat := x % 2^64

/-- Wrap a natural number to C `u16` range (uint16_t arithmetic). -/
def u16wrap (x : Nat) : Nat := x % 2^16

/-- Wrap an integer to C `s32` (two's-complement int32_t). -/
def s32wrap (x : Int) : Int := ((x + 2^31) % 2^32) - 2^31

/-- Wrap an integer to C `s64` (two's-complement int64_t). -/
def s64wrap (x : Int) : Int := ((x + 2^63) % 2^64) - 2^63

/-- Truncation of a rational toward zero, the C float-to-integer
conversion applied to an exactly-represented value. -/
def ratTrunc (q : ℚ) : Int := Int.tdiv q.num (q.den : Int)

/-- Conversion of a (possibly negative) integer to C `u32`, two's
complement. -/
def u32ofInt (x : Int) : Nat := ((x % 2^32).toNat) % 2^32

/-! ### Constants

`GPS_L1_HZ` and `GPS_CA_CHIPPING_RATE` come from libswiftnav's
constants.h; the NAP unit scales come from board/nap/track_channel.h.
Neither header is under src/. -/

/-- GPS L1 carrier frequency in Hz (libswiftnav constant). -/
def GPS_L1_HZ : ℚ := 1575420000

/-- GPS C/A code chipping rate in chips per second (libswiftnav
constant). -/
def GPS_CA_CHIPPING_RATE : ℚ := 1023000

/-- Modelled from the spec: `NAP_TRACK_NOMINAL_CODE_PHASE_RATE` from
board/nap/track_channel.h (not under src/).  Per the fixed-point layout
documented in `propagate_code_phase` ("the nominal code phase rate
corresponds to 1 sub-chip", with 2^28 fractional units per sub-chip), the
nominal per-sample code-phase increment is one sub-chip, i.e. 2^28
units. -/
def NAP_TRACK_NOMINAL_CODE_PHASE_RATE : Nat := 2^28

/-- Modelled from the spec: `NAP_TRACK_CODE_PHASE_RATE_UNITS_PER_HZ` from
board/nap/track_channel.h (not under src/): fixed-point units per Hz of
code frequency, `NAP_TRACK_NOMINAL_CODE_PHASE_RATE / GPS_CA_CHIPPING_RATE`.
Its exact value is irrelevant to every claim proved here. -/
def NAP_TRACK_CODE_PHASE_RATE_UNITS_PER_HZ : ℚ := (2^28 : ℚ) / 1023000

/-- Modelled from the spec: `NAP_TRACK_CARRIER_FREQ_UNITS_PER_HZ` from
board/nap/track_channel.h (not under src/); the carrier NCO holds 2^24
units per cycle advanced once per sample, so units per Hz is
2^24 / sample rate.  Its exact value is irrelevant to every claim proved
here. -/
def NAP_TRACK_CARRIER_FREQ_UNITS_PER_HZ : ℚ := (2^24 : ℚ) / 16368000

/-- Modelled from the spec: `NAP_TRACK_CODE_PHASE_UNITS_PER_CHIP` from
board/nap/track_channel.h (not under src/); the fixed-point code phase is
in chips times 2^32 (see the representation comment in
`propagate_code_phase`). -/
def NAP_TRACK_CODE_PHASE_UNITS_PER_CHIP : ℚ := (2^32 : ℚ)

/-- Modelled from the spec: `SAMPLE_FREQ` (16.368 MHz front-end sample
rate), defined outside src/.  Its exact value is irrelevant to every claim
proved here. -/
def SAMPLE_FREQ : ℚ := 16368000

/-- Modelled from the spec: `TOW_INVALID` sentinel from track.h (not under
src/): the explicit INVALID sentinel for `TOW_ms`, a value outside
[0, 604800000).  Modelled as -1, consistent with `TOW_ms > 0` style
comparisons in track.c. -/
def TOW_INVALID : Int := -1

/-- Modelled from the spec: libswiftnav bit-polarity constant (normal). -/
def BIT_POLARITY_NORMAL : Int := 0

/-- Modelled from the spec: libswiftnav bit-polarity constant
(inverted). -/
def BIT_POLARITY_INVERTED : Int := 1

/-- Modelled from the spec: libswiftnav bit-polarity constant
(unknown). -/
def BIT_POLARITY_UNKNOWN : Int := -1

/-! ### Phase propagator (track.c, `propagate_code_phase`)

```
float propagate_code_phase(float code_phase, float carrier_freq, u32 n_samples)
{
  u32 code_phase_rate = (1.0 + carrier_freq/GPS_L1_HZ) * NAP_TRACK_NOMINAL_CODE_PHASE_RATE;
  u64 propagated_code_phase = (u64)(code_phase * (((u64)1)<<32)) + n_samples * (u64)code_phase_rate;
  return (float)((u32)(propagated_code_phase >> 28) % (1023*16)) / 16.0;
}
```

The function is embedded in the fixed-point domain it itself works in:
`p` is the u64 fixed-point code phase `(u64)(code_phase * 2^32)` (chips
times 2^32), `r` is the u32 carrier-aided rate, and the result is the
sub-chip count `k` with returned chips `k / 16`.  The float conversions at
the boundary are exact for every value the function itself produces: the
result is `k/16` with `k < 16368 < 2^14`, so `k/16` and `(k/16) * 2^32 =
k * 2^28` are exactly representable in single precision, and a composed
call re-enters with `p = k * 2^28`. -/

/-- Fixed-point core of `propagate_code_phase`: u64 accumulation of
`n_samples * code_phase_rate`, shift to sub-chips, u32 truncation, and the
modulo 1023*16 = 16368 wrap.  Result is the code phase in sub-chip units
(chips = result / 16). -/
def propagate_code_phase (p r n : Nat) : Nat :=
  ((u64wrap (p + n * r)) >>> 28) % 2^32 % 16368

/-! ### Loop-parameter settings parser (track.c, `parse_loop_params`)

```
static bool parse_loop_params(struct setting *s, const char *val)
{
  struct loop_params loop_params_parse[2];
  const char *str = val;
  for (int stage = 0; stage < 2; stage++) {
    struct loop_params *l = &loop_params_parse[stage];
    int n_chars_read = 0;
    unsigned int tmp;
    if (sscanf(str, "( %u ms , ( %f , %f , %f , %f ) , ( %f , %f , %f , %f ) ) , %n",
               &tmp, ..., &n_chars_read) < 9) return false;
    l->coherent_ms = tmp;
    str += n_chars_read;
    if ((l->coherent_ms == 0) || ((20 % l->coherent_ms) != 0)
        || (stage == 0 && l->coherent_ms != 1)) return false;
  }
  strncpy(s->addr, val, s->len);
  memcpy(loop_params_stage, loop_params_parse, sizeof(loop_params_stage));
  return true;
}
```

The sscanf call is embedded for this specific format string.  Directive
semantics: a whitespace directive skips any run of whitespace; an ordinary
character must match exactly; `%u` skips whitespace then reads an
optionally signed decimal integer with strtoul saturation/negation
semantics; `%f` skips whitespace then reads a decimal floating literal
(optional sign, digits with optional fraction, optional well-formed
exponent; the hexadecimal / infinity / nan forms of strtof are not
modelled); `%n` stores the number of characters consumed so far and does
not count toward the conversion total.  sscanf returns the number of
completed conversions when it stops early, so the call fails (`< 9`) iff
one of the nine conversions, or a literal strictly before the ninth
conversion, fails; a failure in the trailing `" ) ) , "` after the ninth
conversion still returns 9 with `n_chars_read` left at 0, which is what
makes the omitted-second-stage re-parse work.

The parsed float values only feed the external loop filter; they are kept
as their source tokens (identical tokens denote identical floats), which
is all the claims need. -/

/-- C `isspace` character class. -/
def isSpaceChar (c : Char) : Bool :=
  c = ' ' ∨ c = '\t' ∨ c = '\n' ∨ c = '\x0b' ∨ c = '\x0c' ∨ c = '\r'

/-- Skip a (possibly empty) run of whitespace: a whitespace directive in
an sscanf format, and the implicit skip of `%u` / `%f`. -/
def skipWs : List Char → List Char
  | [] => []
  | c :: cs => if isSpaceChar c then skipWs cs else c :: cs

/-- Match one ordinary format character. -/
def lit (c : Char) : List Char → Option (List Char)
  | [] => none
  | x :: xs => if x = c then some xs else none

/-- Consume a maximal run of decimal digits, returning its value and the
consumed characters. -/
def digitRun : List Char → Nat → List Char → (Nat × List Char × List Char)
  | [], acc, tok => (acc, tok.reverse, [])
  | c :: cs, acc, tok =>
    if c.isDigit then digitRun cs (acc * 10 + (c.toNat - 48)) (c :: tok)
    else (acc, tok.reverse, c :: cs)

/-- Scan `%u`: skip whitespace, optional sign, at least one digit; the
value follows newlib strtoul semantics (saturation at 2^32 - 1, negation
modulo 2^32 for a leading minus). -/
def scanUInt (s : List Char) : Option (Nat × List Char) :=
  let s1 := skipWs s
  let core : Bool → List Char → Option (Nat × List Char) := fun neg t =>
    match t with
    | [] => none
    | c :: _ =>
      if c.isDigit then
        let (v, _, rest) := digitRun t 0 []
        let m := min v (2^32 - 1)
        some ((if neg then (2^32 - m) % 2^32 else m), rest)
      else none
  match s1 with
  | '-' :: t => core true t
  | '+' :: t => core false t
  | t => core false t

/-- Scan `%f`: skip whitespace, optional sign, decimal mantissa with at
least one digit, optional exponent consumed only when well formed (scanf
consumes the longest valid prefix).  The token is returned verbatim. -/
def scanFloatTok (s : List Char) : Option (String × List Char) :=
  let s1 := skipWs s
  let (sgn, s2) : List Char × List Char :=
    match s1 with
    | '-' :: t => (['-'], t)
    | '+' :: t => (['+'], t)
    | t => ([], t)
  let (_, intTok, s3) := digitRun s2 0 []
  let (fracTok, s4) : List Char × List Char :=
    match s3 with
    | '.' :: t => let (_, d, r) := digitRun t 0 []; ('.' :: d, r)
    | t => ([], t)
  if intTok = [] ∧ (fracTok = [] ∨ fracTok = ['.']) then
    none
  else
    let (expTok, s5) : List Char × List Char :=
      match s4 with
      | 'e' :: t =>
        (match t with
         | '-' :: u => let (_, d, r) := digitRun u 0 []
                       if d = [] then ([], s4) else ('e' :: '-' :: d, r)
         | '+' :: u => let (_, d, r) := digitRun u 0 []
                       if d = [] then ([], s4) else ('e' :: '+' :: d, r)
         | u => let (_, d, r) := digitRun u 0 []
                if d = [] then ([], s4) else ('e' :: d, r))
      | 'E' :: t =>
        (match t with
         | '-' :: u => let (_, d, r) := digitRun u 0 []
                       if d = [] then ([], s4) else ('E' :: '-' :: d, r)
         | '+' :: u => let (_, d, r) := digitRun u 0 []
                       if d = [] then ([], s4) else ('E' :: '+' :: d, r)
         | u => let (_, d, r) := digitRun u 0 []
                if d = [] then ([], s4) else ('E' :: d, r))
      | t => ([], t)
    some (String.mk (sgn ++ intTok ++ fracTok ++ expTok), s5)

/-- One stage of the `struct loop_params` table; the eight float fields
are kept as their source tokens, `coherent_ms` is the `u8` field (the
assignment `l->coherent_ms = tmp` truncates the `%u` value modulo 256). -/
structure loop_params where
  code_bw : String
  code_zeta : String
  code_k : String
  carr_to_code : String
  carr_bw : String
  carr_zeta : String
  carr_k : String
  carr_fll_aid_gain : String
  coherent_ms : Nat
deriving DecidableEq, Repr

/-- Skip whitespace then match one ordinary format character (the
`" c"` pattern that recurs in the format string). -/
def litWs (c : Char) (s : List Char) : Option (List Char) :=
  lit c (skipWs s)

/-- Scan the `"%f , %f , %f , %f"` run inside one parenthesised group of
the format. -/
def scanFloats4 (s : List Char) :
    Option (String × String × String × String × List Char) := do
  let (f1, s) ← scanFloatTok s
  let s ← litWs ',' s
  let (f2, s) ← scanFloatTok s
  let s ← litWs ',' s
  let (f3, s) ← scanFloatTok s
  let s ← litWs ',' s
  let (f4, s) ← scanFloatTok s
  pure (f1, f2, f3, f4, s)

/-- Scan the format prefix `"( %u ms , ("` up to the first float group. -/
def scanStageHead (s0 : List Char) : Option (Nat × List Char) := do
  let s ← lit '(' s0
  let (tmp, s) ← scanUInt s
  let s := skipWs s
  let s ← lit 'm' s
  let s ← lit 's' s
  let s ← litWs ',' s
  let s ← litWs '(' s
  pure (tmp, s)

/-- Scan the trailing `" ) ) , "` (after the ninth conversion) and report
the `%n` value: characters of the original input consumed, whitespace
after the comma included. -/
def scanTail (n : Nat) (s : List Char) : Option Nat := do
  let t ← litWs ')' s
  let t ← litWs ')' t
  let t ← litWs ',' t
  let t := skipWs t
  pure (n - t.length)

/-- Run the sscanf format
`"( %u ms , ( %f , %f , %f , %f ) , ( %f , %f , %f , %f ) ) , %n"` on
`s0`.  `none` iff sscanf returns fewer than 9 conversions.  On success the
second component is `some n` (characters consumed through the trailing
comma and following whitespace, the `%n` value) when the trailing
`" ) ) , "` matched, and `none` when it did not (sscanf still returns 9
there and `n_chars_read` keeps its initial 0). -/
def scanStage (s0 : List Char) : Option (loop_params × Option Nat) := do
  let (tmp, s) ← scanStageHead s0
  let (f1, f2, f3, f4, s) ← scanFloats4 s
  let s ← litWs ')' s
  let s ← litWs ',' s
  let s ← litWs '(' s
  let (f5, f6, f7, f8, s) ← scanFloats4 s
  -- the ninth conversion is now complete: sscanf reports success (9)
  -- whether or not the trailing literals match
  pure ({ code_bw := f1, code_zeta := f2, code_k := f3, carr_to_code := f4,
          carr_bw := f5, carr_zeta := f6, carr_k := f7,
          carr_fll_aid_gain := f8, coherent_ms := tmp % 256 },
        scanTail s0.length s)

/-- Global settings state touched by `parse_loop_params`: the active
`loop_params_stage[2]` table and the stored settings string
(`loop_params_string`, capacity 120, written via strncpy on success). -/
structure TrackSettings where
  stage0 : loop_params
  stage1 : loop_params
  stored : String
deriving DecidableEq, Repr

/-- Input position for the second stage parse: `str += n_chars_read`,
where `n_chars_read` stays 0 when the first stage's trailing `" ) ) , "`
did not match. -/
def stage2_input (val : String) (n0 : Option Nat) : List Char :=
  match n0 with
  | some n => val.data.drop n
  | none => val.data

/-- track.c `parse_loop_params`: parse both stages into a local table,
validate each stage's `coherent_ms` as it is parsed, and commit the table
and the settings string only after both stages validate. -/
def parse_loop_params (val : String) (cfg : TrackSettings) :
    Bool × TrackSettings :=
  match scanStage val.data with
  | none => (false, cfg)
  | some (p0, n0) =>
    if p0.coherent_ms = 0 ∨ 20 % p0.coherent_ms ≠ 0 ∨ p0.coherent_ms ≠ 1 then
      (false, cfg)
    else
      match scanStage (stage2_input val n0) with
      | none => (false, cfg)
      | some (p1, _) =>
        if p1.coherent_ms = 0 ∨ 20 % p1.coherent_ms ≠ 0 then
          (false, cfg)
        else
          (true, { stage0 := p0, stage1 := p1,
                   stored := String.mk (val.data.take 120) })

/-- Acceptance condition of `parse_loop_params`, as the claim states it:
the grammar of both stages parses (stage 2 starting where stage 1's `%n`
left off, or at the start again when the second stage was omitted) and
every parsed `coherent_ms` passes the validation (nonzero, divides 20,
and 1 for stage 0). -/
def loop_params_accepted (val : String) : Prop :=
  ∃ p0 n0, scanStage val.data = some (p0, n0) ∧
    ¬ (p0.coherent_ms = 0 ∨ 20 % p0.coherent_ms ≠ 0 ∨ p0.coherent_ms ≠ 1) ∧
    ∃ p1 r1, scanStage (stage2_input val n0) = some (p1, r1) ∧
      ¬ (p1.coherent_ms = 0 ∨ 20 % p1.coherent_ms ≠ 0)

/-! ### CW frequency-sweep channel (cw.c)

Only `cw_service_irq` decides claim C10.  cw.h is not under src/: the
`cw_state_t` field types are reconstructed from their uses; `count` is
modelled with u32 wrap and the frequency bookkeeping as exact integers
(claim C10 does not depend on either width), and `SPECTRUM_LEN` is left
as an explicit parameter, so the theorems hold for every buffer length. -/

/-- CW channel state enumeration (cw.h, reconstructed from cw.c). -/
inductive CwMode where
  | loading
  | loading_done
  | running
  | running_done
deriving DecidableEq, Repr

/-- CW channel state struct (`cw_state_t`).  `spectrum_power` is the
backing array, modelled as a total map; the guarded writes into it are
additionally reported in the event trace with their index, which is what
the out-of-bounds claim is stated about. -/
structure CwState where
  state : CwMode
  count : Nat
  freq : Int
  freq_min : Int
  freq_max : Int
  freq_step : Int
  spectrum_power : Nat → Nat

/-- Events emitted by the CW interrupt service routine: hardware writes,
the guarded spectrum-buffer store (with its index), and the debug-link
result message. -/
inductive CwEvent where
  | spectrumWrite (index : Nat) (power : Nat)
  | sendResult (freq : Int) (power : Nat)
  | napCwDisable
  | napCwWrParams (freq : Int)
deriving DecidableEq, Repr

/-- Correlator readout delivered by `nap_cw_corr_rd_blocking` (an external
hardware read): one I/Q pair. -/
structure CwEnv where
  cs_I : Int
  cs_Q : Int
deriving DecidableEq, Repr

/-- Power accumulation `(u64)cs.I*(u64)cs.I + (u64)cs.Q*(u64)cs.Q` in u64
arithmetic (the s32-to-u64 conversions make the squares exact, the sum
wraps at 2^64). -/
def cwPower (i q : Int) : Nat :=
  u64wrap ((u32ofInt64 i * u32ofInt64 i) % 2^64 + (u32ofInt64 q * u32ofInt64 q) % 2^64)
where
  /-- C conversion of a signed value to u64. -/
  u32ofInt64 (x : Int) : Nat := ((x % 2^64).toNat) % 2^64

/-- cw.c `cw_service_irq`: on a DONE interrupt while RUNNING, read the
correlation, store its power into `spectrum_power` only when `count` is
still below the buffer length, always increment `count`, advance `freq`,
and either program the next pipelined frequency or issue the one or two
final disable writes; in any other state, disable the channel. -/
def cw_service_irq (len : Nat) (env : CwEnv) (s : CwState) :
    CwState × List CwEvent :=
  match s.state with
  | CwMode.running =>
    let power := cwPower env.cs_I env.cs_Q
    let (s1, ev1) :=
      if s.count < len then
        ({ s with spectrum_power :=
             fun i => if i = s.count then power else s.spectrum_power i },
         [CwEvent.spectrumWrite s.count power,
          CwEvent.sendResult s.freq power])
      else (s, [])
    let s2 := { s1 with count := u32wrap (s1.count + 1) }
    let s3 := { s2 with freq := s2.freq + s2.freq_step }
    if s3.freq ≥ s3.freq_max + s3.freq_step then
      ({ s3 with state := CwMode.running_done }, ev1 ++ [CwEvent.napCwDisable])
    else if s3.freq ≥ s3.freq_max then
      (s3, ev1 ++ [CwEvent.napCwDisable])
    else
      (s3, ev1 ++ [CwEvent.napCwWrParams (s3.freq + s3.freq_step)])
  | _ => (s, [CwEvent.napCwDisable])

/-- Iterate `cw_service_irq` over a sequence of interrupts, accumulating
the full event trace. -/
def cw_irq_run (len : Nat) : List CwEnv → CwState → CwState × List CwEvent
  | [], s => (s, [])
  | e :: es, s =>
    let (s1, ev1) := cw_service_irq len e s
    let (s2, ev2) := cw_irq_run len es s1
    (s2, ev1 ++ ev2)

/-! ### Tracking channel state (track.h struct, reconstructed from its
uses in track.c)

Field types follow the C struct: `u32` counters as `Nat` wrapped with
`u32wrap` at each operation, the `u64` code-phase accumulator likewise,
the `s64` carrier-phase accumulator and `s32` fixed-point carrier rate as
`Int`, `s32 TOW_ms` as `Int` (with the `TOW_INVALID` sentinel), and the
float-valued fields as exact rationals.  The libswiftnav sub-states
(`nav_msg_t`, `aided_tl_state_t`, `cn0_est_state_t`,
`alias_detect_t`) are external; only the fields track.c itself reads or
writes are carried, plus an opaque remainder token. -/

/-- Tracking channel state enumeration; per the initialiser comment in
track.c, `TRACKING_DISABLED = 0`, and the spec's state set is
{Disabled, Running}. -/
inductive TrackingState where
  | disabled
  | running
deriving DecidableEq, Repr

/-- One correlation (I/Q pair), `corr_t`. -/
structure Corr where
  i : Int
  q : Int
deriving DecidableEq, Repr

/-- Navigation-message decoder state (libswiftnav `nav_msg_t`, external):
the fields track.c reads (`bit_phase`, `bit_phase_ref`, `bit_polarity`)
plus an opaque remainder. -/
structure NavMsg where
  bit_phase : Int
  bit_phase_ref : Int
  bit_polarity : Int
  rest : Nat
deriving DecidableEq, Repr

/-- Loop-filter state (libswiftnav `aided_tl_state_t`, external): the
fields track.c reads or writes (`carr_freq`, `code_freq`,
`carr_filt.y`, `code_filt.y`) plus an opaque remainder. -/
structure TlState where
  carr_freq : ℚ
  code_freq : ℚ
  carr_filt_y : ℚ
  code_filt_y : ℚ
  rest : Nat
deriving DecidableEq, Repr

/-- C/N0 estimator state (libswiftnav, external, fully opaque to
track.c): either freshly initialised by `cn0_est_init` with the recorded
arguments, or an external post-update state. -/
inductive Cn0State where
  | inited (loop_freq : ℚ) (cn0_0 : ℚ) (cutoff_freq : ℚ) (loop_freq2 : ℚ)
  | ext (t : Nat)
deriving DecidableEq, Repr

/-- Alias detector state (libswiftnav `alias_detect_t`, external): the
fields track.c reads (`first_I`, `first_Q`) plus an opaque remainder. -/
structure AliasState where
  first_I : Int
  first_Q : Int
  rest : Nat
deriving DecidableEq, Repr

/-- Modelled from the spec: libswiftnav `nav_msg_init` (external decoder
initialisation); zeroed counters with unknown bit polarity. -/
def nav_msg_init_state : NavMsg :=
  { bit_phase := 0, bit_phase_ref := 0,
    bit_polarity := BIT_POLARITY_UNKNOWN, rest := 0 }

/-- Modelled from the spec: libswiftnav `aided_tl_init` (external);
records the commanded initial code and carrier frequencies, internals
opaque.  The `loop_freq` and gain arguments configure the opaque part. -/
def aided_tl_init_state (_loop_freq : ℚ) (code_freq carr_freq : ℚ) : TlState :=
  { carr_freq := carr_freq, code_freq := code_freq,
    carr_filt_y := carr_freq, code_filt_y := code_freq, rest := 0 }

/-- Modelled from the spec: libswiftnav `alias_detect_init` (external);
internals opaque.  The accumulation-length and time-diff arguments
configure the opaque part. -/
def alias_detect_init_state (_acc_len : Nat) (_time_diff : ℚ) : AliasState :=
  { first_I := 0, first_Q := 0, rest := 0 }

/-- Tracking channel struct (`tracking_channel_t`). -/
structure Chan where
  state : TrackingState
  prn : Nat
  update_count : Nat
  mode_change_count : Nat
  stage : Nat
  TOW_ms : Int
  snr_above_threshold_count : Nat
  snr_below_threshold_count : Nat
  tl_state : TlState
  int_ms : Nat
  code_phase_early : Nat
  code_phase_rate_fp : Nat
  code_phase_rate_fp_prev : Nat
  code_phase_rate : ℚ
  carrier_phase : Int
  carrier_freq : ℚ
  carrier_freq_fp : Int
  carrier_freq_fp_prev : Int
  sample_count : Nat
  corr_sample_count : Nat
  nav_msg : NavMsg
  short_cycle : Bool
  cn0_est : Cn0State
  alias_detect : AliasState
  cn0 : ℚ
  lock_counter : Nat
  output_iq : Bool
  cs : Corr × Corr × Corr
deriving DecidableEq, Repr

/-- Events emitted by the tracking-channel operations: NAP hardware
register writes, the timing strobe, log messages, and the optional SBP
IQ telemetry message. -/
inductive Event where
  | trackUpdateWr (channel : Nat) (carrier_freq_fp : Int)
      (code_phase_rate_fp : Nat) (rollover : Nat) (spacing : Nat)
  | trackCodeWr (channel : Nat) (prn : Nat)
  | trackInitWr (channel : Nat) (prn : Nat) (carrier_phase : Nat)
      (code_phase : Nat)
  | timingStrobe (count : Nat)
  | logErrorTowMismatch (prn : Nat) (old : Int) (candidate : Int)
  | logWarnFalseLock (prn : Nat)
  | logInfoSynced (prn : Nat)
  | sbpIqMsg (channel : Nat) (prn : Nat) (cs : Corr × Corr × Corr)
deriving DecidableEq, Repr

/-- Results of the external libswiftnav calls made by one execution of
`tracking_channel_update`: the decoder update's returned TOW candidate
and post-call decoder state, the C/N0 estimate and post-call estimator
state, the loop-filter post-update state, the alias detector's frequency
error and post-call state, and the loop-filter state after a promotion
retune.  Every theorem quantifies over this record, so it covers every
possible behaviour of the external engines. -/
structure UpdateEnv where
  nav_ret : Int
  nav_after : NavMsg
  cn0_ret : ℚ
  cn0_after : Cn0State
  tl_after : TlState
  alias_err : ℚ
  alias_after : AliasState
  tl_retune_after : TlState
deriving DecidableEq, Repr

/-- Tracker-side view of one stage of `loop_params_stage` (float fields
as exact rationals). -/
structure loop_params_q where
  code_bw : ℚ
  code_zeta : ℚ
  code_k : ℚ
  carr_to_code : ℚ
  carr_bw : ℚ
  carr_zeta : ℚ
  carr_k : ℚ
  carr_fll_aid_gain : ℚ
  coherent_ms : Nat
deriving DecidableEq, Repr

/-- track.c `tracking_channel_disable`: zero the hardware carrier and
code rates (one update write with all-zero arguments) and mark the
channel Disabled; nothing else is touched. -/
def tracking_channel_disable (ch : Nat) (c : Chan) : Chan × List Event :=
  ({ c with state := TrackingState.disabled },
   [Event.trackUpdateWr ch 0 0 0 0])

/-- track.c `tracking_channel_ambiguity_unknown`: mark the decoder bit
polarity unknown and copy the incremented per-satellite lock counter
(a `u16`, incremented with u16 wrap-around) into the channel.  The
lock-counter table (`tracking_lock_counters`, indexed by PRN) is passed
and returned explicitly. -/
def tracking_channel_ambiguity_unknown (locks : Nat → Nat) (c : Chan) :
    (Nat → Nat) × Chan :=
  let prn := c.prn
  let newv := u16wrap (locks prn + 1)
  (fun i => if i = prn then newv else locks i,
   { c with
     nav_msg := { c.nav_msg with bit_polarity := BIT_POLARITY_UNKNOWN },
     lock_counter := newv })

/-- track.c `tracking_channel_init`: set up a channel slot over its
previous contents (fields the C code does not assign keep their old
values), perform the ambiguity reset (which increments the lock-counter
table), and issue the code write, init write, initial update write and
timing strobe.  The start sample count is moved half a sub-chip (8
samples) earlier, with u32 wrap. -/
def tracking_channel_init (lp0 lp1 : loop_params_q) (locks : Nat → Nat)
    (ch prn : Nat) (carrier_freq : ℚ) (start_sample_count : Nat)
    (cn0_init : ℚ) (old : Chan) : Chan × (Nat → Nat) × List Event :=
  let code_phase_rate : ℚ :=
    (1 + carrier_freq / GPS_L1_HZ) * GPS_CA_CHIPPING_RATE
  let start := u32wrap (start_sample_count + 2^32 - 8)
  let cFp : Nat :=
    u32ofInt (ratTrunc (code_phase_rate * NAP_TRACK_CODE_PHASE_RATE_UNITS_PER_HZ))
  let carrFp : Int :=
    s32wrap (ratTrunc (carrier_freq * NAP_TRACK_CARRIER_FREQ_UNITS_PER_HZ))
  let c1 := { old with
    state := TrackingState.running, prn := prn,
    update_count := 0, mode_change_count := 0, stage := 0 }
  let lc := tracking_channel_ambiguity_unknown locks c1
  let c3 := { lc.2 with
    TOW_ms := TOW_INVALID,
    snr_above_threshold_count := 0, snr_below_threshold_count := 0,
    tl_state := aided_tl_init_state (1000 / (lp0.coherent_ms : ℚ))
      (code_phase_rate - GPS_CA_CHIPPING_RATE) carrier_freq,
    int_ms := lp0.coherent_ms,
    code_phase_early := 0,
    code_phase_rate_fp := cFp, code_phase_rate_fp_prev := cFp,
    code_phase_rate := code_phase_rate,
    carrier_phase := 0,
    carrier_freq := carrier_freq,
    carrier_freq_fp := carrFp, carrier_freq_fp_prev := carrFp,
    sample_count := start,
    nav_msg := nav_msg_init_state,
    short_cycle := true,
    cn0_est := Cn0State.inited (1000 / (lp0.coherent_ms : ℚ)) cn0_init 5
      (1000 / (lp0.coherent_ms : ℚ)),
    alias_detect := alias_detect_init_state (500 / lp1.coherent_ms)
      (((lp1.coherent_ms : ℚ) - 1) / 1000) }
  (c3, lc.1,
   [Event.trackCodeWr ch prn, Event.trackInitWr ch prn 0 0,
    Event.trackUpdateWr ch carrFp cFp 0 0, Event.timingStrobe start])

/-- Bookkeeping prefix of `tracking_channel_update` (track.c lines
253-270): accumulate `sample_count`, advance the fixed-point phase
accumulators with the previously-integrated rates (with the one-sample
first-integration correction), commit the `_prev` rates, then advance a
known TOW by 1 ms on a short cycle and `int_ms - 1` ms otherwise, modulo
one week.  The C `%` acts on nonnegative values here (the only negative
`TOW_ms` is the guarded-out sentinel), where it agrees with `emod`. -/
def updateBookkeep (c : Chan) : Chan :=
  { c with
    sample_count := u32wrap (c.sample_count + c.corr_sample_count),
    code_phase_early := u64wrap
      (c.code_phase_early + c.corr_sample_count * c.code_phase_rate_fp_prev),
    carrier_phase :=
      (if c.update_count = 0 then
        s64wrap (s64wrap (c.carrier_phase
          + c.carrier_freq_fp_prev * (c.corr_sample_count : Int))
          - c.carrier_freq_fp_prev)
      else
        s64wrap (c.carrier_phase
          + c.carrier_freq_fp_prev * (c.corr_sample_count : Int))),
    code_phase_rate_fp_prev := c.code_phase_rate_fp,
    carrier_freq_fp_prev := c.carrier_freq_fp,
    TOW_ms :=
      (if c.TOW_ms ≠ TOW_INVALID then
        (c.TOW_ms + (if c.short_cycle then 1 else (c.int_ms : Int) - 1))
          % 604800000
      else c.TOW_ms) }

/-- Full-pipeline half of `tracking_channel_update` (track.c lines
291-391), reached on every cycle when `int_ms == 1` and on the long half
otherwise.  `s1ms` is `loop_params_stage[1].coherent_ms` (read at stage
promotion); `c` is the channel after bookkeeping (and the short-cycle
flip, when `int_ms > 1`).  The values handed to the external engines
(`cs[1].I/int_ms`, the reversed correlation triple, the averaged excess
correlation) flow only into the oracle calls and are therefore absorbed
by the universally-quantified `UpdateEnv`. -/
def updateFull (s1ms ch : Nat) (env : UpdateEnv) (c : Chan) :
    Chan × List Event :=
  let uc := u32wrap (c.update_count + c.int_ms)
  let adopt := 0 < env.nav_ret ∧ c.TOW_ms ≠ env.nav_ret
  let cf := env.tl_after.carr_freq
  let cpr := env.tl_after.code_freq + GPS_CA_CHIPPING_RATE
  let cprFp :=
    u32ofInt (ratTrunc (cpr * NAP_TRACK_CODE_PHASE_RATE_UNITS_PER_HZ))
  let cfFp :=
    s32wrap (ratTrunc (cf * NAP_TRACK_CARRIER_FREQ_UNITS_PER_HZ))
  let aliasHit := c.int_ms ≠ 1 ∧ |env.alias_err| > ((250 / c.int_ms : Nat) : ℚ)
  let promo := c.stage = 0 ∧ c.int_ms = 1 ∧
    env.nav_after.bit_phase = env.nav_after.bit_phase_ref
  let msNew := if promo then s1ms else c.int_ms
  ({ c with
     update_count := uc,
     nav_msg := env.nav_after,
     TOW_ms := if adopt then env.nav_ret else c.TOW_ms,
     cn0 := env.cn0_ret,
     cn0_est :=
       if promo then
         Cn0State.inited (1000 / (s1ms : ℚ)) env.cn0_ret 5 (1000 / (s1ms : ℚ))
       else env.cn0_after,
     tl_state :=
       if promo then env.tl_retune_after
       else if aliasHit then
         { env.tl_after with
           carr_freq := env.tl_after.carr_freq + env.alias_err,
           carr_filt_y := env.tl_after.carr_freq + env.alias_err }
       else env.tl_after,
     alias_detect := if c.int_ms ≠ 1 then env.alias_after else c.alias_detect,
     carrier_freq := cf,
     code_phase_rate := cpr,
     code_phase_rate_fp_prev := c.code_phase_rate_fp,
     code_phase_rate_fp := cprFp,
     carrier_freq_fp := cfFp,
     stage := if promo then 1 else c.stage,
     int_ms := msNew,
     short_cycle := if promo then true else c.short_cycle,
     mode_change_count := if promo ∨ aliasHit then uc else c.mode_change_count },
   (if adopt ∧ c.TOW_ms ≠ TOW_INVALID then
      [Event.logErrorTowMismatch c.prn c.TOW_ms env.nav_ret] else [])
   ++ (if c.output_iq = true ∧ 1 < c.int_ms then
      [Event.sbpIqMsg ch c.prn c.cs] else [])
   ++ (if aliasHit then [Event.logWarnFalseLock c.prn] else [])
   ++ (if promo then [Event.logInfoSynced c.prn] else [])
   ++ [Event.trackUpdateWr ch cfFp cprFp
        (if msNew = 1 then 0 else msNew - 2) 0])

/-- track.c `tracking_channel_update`: on a Running channel, do the
bookkeeping; when `int_ms > 1`, flip `short_cycle` and, if the completed
interval was the short half, issue one early hardware write with the
already-current fixed-point rates and zero flags and return; otherwise
run the full pipeline.  On any other state, fall through to the defensive
disable. -/
def tracking_channel_update (s1ms ch : Nat) (env : UpdateEnv) (c : Chan) :
    Chan × List Event :=
  if c.state = TrackingState.running then
    let cb := updateBookkeep c
    if 1 < cb.int_ms then
      let c2 := { cb with short_cycle := !cb.short_cycle }
      if c2.short_cycle = false then
        (c2, [Event.trackUpdateWr ch c2.carrier_freq_fp
               c2.code_phase_rate_fp 0 0])
      else updateFull s1ms ch env c2
    else updateFull s1ms ch env cb
  else tracking_channel_disable ch c

/-- Iterate `tracking_channel_update`, one environment record per
correlation-ready event, discarding the event traces. -/
def tracking_run (s1ms ch : Nat) (envs : List UpdateEnv) (c : Chan) : Chan :=
  envs.foldl (fun c e => (tracking_channel_update s1ms ch e c).1) c

/-- track.c `tracking_channel_snr`. -/
def tracking_channel_snr (c : Chan) : ℚ := c.cn0

/-- Channel measurement (`channel_measurement_t`), double fields as exact
rationals. -/
structure Meas where
  prn : Nat
  code_phase_chips : ℚ
  code_phase_rate : ℚ
  carrier_phase : ℚ
  carrier_freq : ℚ
  time_of_week_ms : Int
  receiver_time : ℚ
  snr : ℚ
  lock_counter : Nat
deriving DecidableEq, Repr

/-- track.c `tracking_update_measurement`: pure snapshot of a channel
into a measurement; the carrier phase gains a +0.5 cycle correction
exactly when the decoder's bit polarity is flagged inverted. -/
def tracking_update_measurement (c : Chan) : Meas :=
  { prn := c.prn,
    code_phase_chips :=
      (c.code_phase_early : ℚ) / NAP_TRACK_CODE_PHASE_UNITS_PER_CHIP,
    code_phase_rate := c.code_phase_rate,
    carrier_phase := (c.carrier_phase : ℚ) / (2^24 : ℚ)
      + (if c.nav_msg.bit_polarity = BIT_POLARITY_INVERTED then 1/2 else 0),
    carrier_freq := c.carrier_freq,
    time_of_week_ms := c.TOW_ms,
    receiver_time := (c.sample_count : ℚ) / SAMPLE_FREQ,
    snr := tracking_channel_snr c,
    lock_counter := c.lock_counter }

/-! ### Concrete fixtures used by witnesses and counterexamples -/

/-- A concrete blank channel record (the all-zero initial state of the
static `tracking_channel` array; `TRACKING_DISABLED = 0`). -/
def chanBlank : Chan :=
  { state := TrackingState.disabled, prn := 0, update_count := 0,
    mode_change_count := 0, stage := 0, TOW_ms := 0,
    snr_above_threshold_count := 0, snr_below_threshold_count := 0,
    tl_state := { carr_freq := 0, code_freq := 0, carr_filt_y := 0,
                  code_filt_y := 0, rest := 0 },
    int_ms := 1, code_phase_early := 0, code_phase_rate_fp := 0,
    code_phase_rate_fp_prev := 0, code_phase_rate := 0, carrier_phase := 0,
    carrier_freq := 0, carrier_freq_fp := 0, carrier_freq_fp_prev := 0,
    sample_count := 0, corr_sample_count := 0,
    nav_msg := { bit_phase := 0, bit_phase_ref := 0, bit_polarity := 0,
                 rest := 0 },
    short_cycle := true,
    cn0_est := Cn0State.ext 0,
    alias_detect := { first_I := 0, first_Q := 0, rest := 0 },
    cn0 := 0, lock_counter := 0, output_iq := false,
    cs := (⟨0, 0⟩, ⟨0, 0⟩, ⟨0, 0⟩) }

/-- A concrete environment record: every external engine returns zeroed
results and the decoder reports no TOW candidate and no bit sync. -/
def envBlank : UpdateEnv :=
  { nav_ret := 0,
    nav_after := { bit_phase := 0, bit_phase_ref := 1, bit_polarity := 0,
                   rest := 0 },
    cn0_ret := 0, cn0_after := Cn0State.ext 0,
    tl_after := { carr_freq := 0, code_freq := 0, carr_filt_y := 0,
                  code_filt_y := 0, rest := 0 },
    alias_err := 0,
    alias_after := { first_I := 0, first_Q := 0, rest := 0 },
    tl_retune_after := { carr_freq := 0, code_freq := 0, carr_filt_y := 0,
                         code_filt_y := 0, rest := 0 } }

/-- A concrete blank settings state. -/
def cfgBlank : TrackSettings :=
  { stage0 := { code_bw := "", code_zeta := "", code_k := "",
                carr_to_code := "", carr_bw := "", carr_zeta := "",
                carr_k := "", carr_fll_aid_gain := "", coherent_ms := 0 },
    stage1 := { code_bw := "", code_zeta := "", code_k := "",
                carr_to_code := "", carr_bw := "", carr_zeta := "",
                carr_k := "", carr_fll_aid_gain := "", coherent_ms := 0 },
    stored := "" }

/-- A concrete RUNNING CW sweep state used by the C10 witness. -/
def cwRunFixture : CwState :=
  { state := CwMode.running, count := 1, freq := 0, freq_min := 0,
    freq_max := 100, freq_step := 10, spectrum_power := fun _ => 0 }


/-- Concrete stage-0 loop parameters (the default settings string's first
stage), used by witnesses. -/
def lpStage0Fixture : loop_params_q :=
  { code_bw := 1, code_zeta := 7/10, code_k := 1, carr_to_code := 1540,
    carr_bw := 10, carr_zeta := 7/10, carr_k := 1, carr_fll_aid_gain := 5,
    coherent_ms := 1 }

/-- Concrete stage-1 loop parameters (the default settings string's second
stage), used by witnesses. -/
def lpStage1Fixture : loop_params_q :=
  { code_bw := 1, code_zeta := 7/10, code_k := 1, carr_to_code := 1540,
    carr_bw := 50, carr_zeta := 7/10, carr_k := 1, carr_fll_aid_gain := 0,
    coherent_ms := 5 }

/-- A freshly initialised channel (PRN 3, zero Doppler), used by
witnesses. -/
def initFixture : Chan :=
  (tracking_channel_init lpStage0Fixture lpStage1Fixture (fun _ => 0)
    0 3 0 1000 40 chanBlank).1

/-- An environment whose decoder reports bit sync (bit phase equal to its
reference) and no TOW candidate, used by witnesses. -/
def envPromoFixture : UpdateEnv :=
  { envBlank with
    nav_after := { bit_phase := 0, bit_phase_ref := 0, bit_polarity := 0,
                   rest := 0 } }

/-- A Running 1 ms channel with a known TOW of 5 ms, used by witnesses. -/
def chanRun1 : Chan :=
  { chanBlank with state := TrackingState.running, TOW_ms := 5 }

/-- A Running 1 ms channel with the TOW sentinel, used by witnesses. -/
def chanRunInvalid : Chan :=
  { chanRun1 with TOW_ms := -1 }

/-- A Running channel in a 5 ms integration stage at the start of a short
cycle, used by witnesses. -/
def chanRunLong : Chan :=
  { chanRun1 with int_ms := 5 }

/-- An environment whose decoder returns the TOW candidate 42 ms, used by
the C7 evaluation. -/
def envTow42 : UpdateEnv := { envBlank with nav_ret := 42 }

/-- A channel whose decoder polarity is flagged inverted, used by
witnesses. -/
def chanInvFixture : Chan :=
  { chanBlank with
    nav_msg := { chanBlank.nav_msg with bit_polarity := 1 } }

/-- The spec's one-stage example configuration string. -/
def valOneStage : String := "(1 ms, (1, 0.7, 1, 1540), (10, 0.7, 1, 5))"

/-! ## Theorems -/

/-- C3, counterexample.  The claim quantifies over all sample counts
`n1`, `n2`; but the one-step call receives `n1 + n2` through a `u32`
parameter.  With `n1 = n2 = 2^31` (and zero Doppler, so the rate is the
nominal one sub-chip per sample) the one-step sample count wraps to 0 and
returns code phase 0, while the two-step propagation lands at 4096
sub-chips (256 chips): the results differ by far more than one sub-chip
modulo 1023 chips. -/
theorem propagate_code_phase_cex :
    propagate_code_phase 0 NAP_TRACK_NOMINAL_CODE_PHASE_RATE
      ((2^31 + 2^31) % 2^32) = 0 ∧
    propagate_code_phase
      (propagate_code_phase 0 NAP_TRACK_NOMINAL_CODE_PHASE_RATE (2^31) * 2^28)
      NAP_TRACK_NOMINAL_CODE_PHASE_RATE (2^31) = 4096 ∧
    (4096 ≠ 0 ∧ (0 + 1) % 16368 ≠ 4096 ∧ (4096 + 1) % 16368 ≠ 0) := by
  refine ⟨by decide, by decide, by decide⟩

/-- C3 (amended): `propagate_code_phase` always returns a code phase in
[0, 1023) chips (16368 sub-chips), and whenever the combined sample count
does not overflow its u32 parameter and the total fixed-point phase stays
below 2^60 (so the `(u32)` truncation of the shifted phase does not
engage), propagating by `n1` then `n2` samples agrees with propagating by
`n1 + n2` in one step up to one sub-chip modulo 1023 chips: the one-step
result equals the two-step result exactly, or exceeds it by one sub-chip
(the fractional sub-chip bits the intermediate quantization discards). -/
theorem propagate_code_phase_compose :
    (∀ p r n, propagate_code_phase p r n < 16368) ∧
    (∀ p r n1 n2 : Nat, p < 1023 * 2^32 → n1 + n2 < 2^32 →
      p + (n1 + n2) * r < 2^60 →
      propagate_code_phase p r ((n1 + n2) % 2^32) =
        propagate_code_phase (propagate_code_phase p r n1 * 2^28) r n2 ∨
      propagate_code_phase p r ((n1 + n2) % 2^32) =
        (propagate_code_phase (propagate_code_phase p r n1 * 2^28) r n2 + 1)
          % 16368) := by
  constructor
  · intro p r n
    exact Nat.mod_lt _ (by norm_num)
  · intro p r n1 n2 hp hn hS
    rw [Nat.mod_eq_of_lt hn]
    have hSa : p + (n1 + n2) * r = (p + n1 * r) + n2 * r := by ring
    set a := p + n1 * r with ha_def
    set S := p + (n1 + n2) * r with hS_def
    have haS : a ≤ S := by rw [hSa]; exact Nat.le_add_right a (n2 * r)
    have haLt : a < 2^60 := lt_of_le_of_lt haS hS
    have ha64 : a % 2^64 = a := Nat.mod_eq_of_lt (lt_trans haLt (by norm_num))
    have hS64 : S % 2^64 = S := Nat.mod_eq_of_lt (lt_trans hS (by norm_num))
    have haT : a / 2^28 < 2^32 := by
      rw [Nat.div_lt_iff_lt_mul (by norm_num : 0 < 2^28)]
      calc a < 2^60 := haLt
        _ = 2^32 * 2^28 := by norm_num
    have hST : S / 2^28 < 2^32 := by
      rw [Nat.div_lt_iff_lt_mul (by norm_num : 0 < 2^28)]
      calc S < 2^60 := hS
        _ = 2^32 * 2^28 := by norm_num
    -- the first two-step call
    have hstep1 : propagate_code_phase p r n1 = (a / 2^28) % 16368 := by
      unfold propagate_code_phase u64wrap
      rw [ha_def] at ha64 haT ⊢
      rw [ha64, Nat.shiftRight_eq_div_pow, Nat.mod_eq_of_lt haT]
    set k1 := (a / 2^28) % 16368 with hk1_def
    set fa := a % 2^28 with hfa_def
    set q := (a / 2^28) / 16368 with hq_def
    have hfaLt : fa < 2^28 := Nat.mod_lt _ (by norm_num)
    have hk1Le : k1 * 2^28 ≤ a :=
      le_trans (Nat.mul_le_mul_right _ (Nat.mod_le _ _))
        (Nat.div_mul_le_self a (2^28))
    set x2 := k1 * 2^28 + n2 * r with hx2_def
    have hx2S : x2 ≤ S := by
      rw [hSa]; exact Nat.add_le_add_right hk1Le _
    have hx2Lt : x2 < 2^60 := lt_of_le_of_lt hx2S hS
    have hx264 : x2 % 2^64 = x2 := Nat.mod_eq_of_lt (lt_trans hx2Lt (by norm_num))
    have hx2T : x2 / 2^28 < 2^32 := by
      rw [Nat.div_lt_iff_lt_mul (by norm_num : 0 < 2^28)]
      calc x2 < 2^60 := hx2Lt
        _ = 2^32 * 2^28 := by norm_num
    -- the second two-step call computes (x2 / 2^28) % 16368
    have hstep2 : propagate_code_phase (propagate_code_phase p r n1 * 2^28) r n2
        = (x2 / 2^28) % 16368 := by
      rw [hstep1]
      unfold propagate_code_phase u64wrap
      rw [hx2_def] at hx264 hx2T
      rw [hx264, Nat.shiftRight_eq_div_pow, Nat.mod_eq_of_lt hx2T]
    -- decompose S around the second call's input
    have hSdecomp : S = (x2 + fa) + 2^28 * (16368 * q) := by
      have h1 : a / 2^28 = 16368 * q + k1 := by
        rw [hq_def, hk1_def]; exact (Nat.div_add_mod _ 16368).symm
      have h2 : a = 2^28 * (a / 2^28) + fa := by
        rw [hfa_def]; exact (Nat.div_add_mod a (2^28)).symm
      rw [hSa, hx2_def]
      rw [h2, h1]; ring
    have hSdiv : S / 2^28 = (x2 + fa) / 2^28 + 16368 * q := by
      rw [hSdecomp]; exact Nat.add_mul_div_left _ _ (by norm_num)
    have hone : propagate_code_phase p r (n1 + n2) = ((x2 + fa) / 2^28) % 16368 := by
      unfold propagate_code_phase u64wrap
      rw [hS_def] at hS64 hST hSdiv
      rw [hS64, Nat.shiftRight_eq_div_pow, Nat.mod_eq_of_lt hST, hSdiv,
        Nat.add_mul_mod_self_left]
    have hsplit : (x2 + fa) / 2^28 = x2 / 2^28 +
        (if 2^28 ≤ x2 % 2^28 + fa then 1 else 0) := by
      rw [Nat.add_div (by norm_num : 0 < 2^28), Nat.div_eq_of_lt hfaLt,
        Nat.mod_eq_of_lt hfaLt, Nat.add_zero]
    rw [hone, hstep2, hsplit]
    by_cases hc : 2^28 ≤ x2 % 2^28 + fa
    · right
      rw [if_pos hc, Nat.mod_add_mod]
    · left
      rw [if_neg hc, Nat.add_zero]

/-- C3, witness for the amended compose property at a concrete input:
code phase half a chip (8 sub-chips), nominal rate, 3 then 5 samples. -/
theorem propagate_code_phase_compose_witness :
    ((8 * 2^28 : Nat) < 1023 * 2^32 ∧ (3 + 5 : Nat) < 2^32 ∧
      8 * 2^28 + (3 + 5) * 2^28 < 2^60) ∧
    (propagate_code_phase (8 * 2^28) (2^28) ((3 + 5) % 2^32) =
      propagate_code_phase
        (propagate_code_phase (8 * 2^28) (2^28) 3 * 2^28) (2^28) 5 ∨
    propagate_code_phase (8 * 2^28) (2^28) ((3 + 5) % 2^32) =
      (propagate_code_phase
        (propagate_code_phase (8 * 2^28) (2^28) 3 * 2^28) (2^28) 5 + 1)
        % 16368) :=
  ⟨⟨by decide, by decide, by decide⟩,
   propagate_code_phase_compose.2 (8 * 2^28) (2^28) 3 5
     (by decide) (by decide) (by decide)⟩

/-- A spectrum-buffer store emitted by one CW interrupt service always
has index equal to the pre-call count and strictly below the buffer
length (helper for C10). -/
theorem cw_irq_write_bound (len : Nat) (env : CwEnv) (s : CwState)
    (i p : Nat) (hmem : CwEvent.spectrumWrite i p ∈ (cw_service_irq len env s).2) :
    i = s.count ∧ i < len := by
  cases hst : s.state <;>
    simp only [cw_service_irq, hst] at hmem
  case loading => simp at hmem
  case loading_done => simp at hmem
  case running_done => simp at hmem
  case running =>
    by_cases hcnt : s.count < len
    · simp only [if_pos hcnt] at hmem
      split_ifs at hmem <;>
        simp only [List.mem_append, List.mem_cons, List.mem_singleton,
          List.not_mem_nil, or_false] at hmem <;>
        simp at hmem <;>
        exact ⟨hmem.1, hmem.1 ▸ hcnt⟩
    · simp only [if_neg hcnt] at hmem
      split_ifs at hmem <;>
        simp at hmem

/-- C10: in the frequency-sweep interrupt handler, a write into the
spectrum-power array happens only when the running count is still
strictly below the buffer length (and then exactly at index `count`),
while the count itself keeps incrementing (with its machine-word wrap)
past the bound; hence over any number of serviced interrupts every
spectrum-buffer write stays strictly inside the buffer, whatever the
buffer length and however many search points the sweep covers. -/
theorem cw_spectrum_never_out_of_bounds :
    (∀ len env s, s.state = CwMode.running →
      (cw_service_irq len env s).1.count = u32wrap (s.count + 1)) ∧
    (∀ len env s i p,
      CwEvent.spectrumWrite i p ∈ (cw_service_irq len env s).2 →
      i = s.count ∧ i < len) ∧
    (∀ len envs s i p,
      CwEvent.spectrumWrite i p ∈ (cw_irq_run len envs s).2 → i < len) := by
  refine ⟨?_, fun len env s i p h => cw_irq_write_bound len env s i p h, ?_⟩
  · intro len env s h
    simp only [cw_service_irq, h]
    split_ifs <;> rfl
  · intro len envs
    induction envs with
    | nil => intro s i p h; simp [cw_irq_run] at h
    | cons e es ih =>
      intro s i p h
      simp only [cw_irq_run, List.mem_append] at h
      rcases h with h | h
      · exact (cw_irq_write_bound len e s i p h).2
      · exact ih _ i p h

/-- C10, witness: a concrete RUNNING sweep state one step from the end of
a length-2 buffer; the service call reports the pre-call count and the
bound for its write, and the iterated run emits no out-of-bounds index. -/
theorem cw_spectrum_never_out_of_bounds_witness :
    (cwRunFixture.state = CwMode.running ∧
      (cw_service_irq 2 ⟨3, 4⟩ cwRunFixture).1.count
        = u32wrap (cwRunFixture.count + 1)) ∧
    (CwEvent.spectrumWrite 1 25 ∈ (cw_service_irq 2 ⟨3, 4⟩ cwRunFixture).2 ∧
      ((1 : Nat) = cwRunFixture.count ∧ (1 : Nat) < 2)) :=
  ⟨⟨rfl, cw_spectrum_never_out_of_bounds.1 2 ⟨3, 4⟩ cwRunFixture rfl⟩,
   by decide,
   cw_spectrum_never_out_of_bounds.2.1 2 ⟨3, 4⟩ cwRunFixture 1 25 (by decide)⟩

/-- C2, counterexample.  The lock-counter table entries are `u16`; the
increment in `tracking_channel_ambiguity_unknown` wraps at 2^16.  With the
satellite's entry at 65535, an ambiguity reset produces the table value 0:
the counter decreases, contradicting "strictly increases and never
decreases". -/
theorem ambiguity_unknown_lock_counter_cex :
    (tracking_channel_ambiguity_unknown (fun _ => 65535) chanBlank).1
      chanBlank.prn = 0 ∧
    (0 : Nat) < 65535 :=
  ⟨by decide, by decide⟩

/-- C2 (amended): every ambiguity reset marks the decoder bit polarity
unknown, increments the satellite's lock-counter table entry modulo 2^16
(the entry is a `u16`, so 65535 wraps to 0) and copies the new table value
into the channel's `lock_counter`, leaving all other satellites' entries
unchanged; the counter strictly increases whenever the previous value is
below 65535 (i.e. except across the u16 wrap); and re-initialising a
channel performs exactly the same table increment, so the monotonicity
also holds across a disable/re-initialisation sequence. -/
theorem ambiguity_unknown_lock_counter :
    (∀ locks c,
      (tracking_channel_ambiguity_unknown locks c).1 c.prn
          = u16wrap (locks c.prn + 1) ∧
      (tracking_channel_ambiguity_unknown locks c).2.lock_counter
          = (tracking_channel_ambiguity_unknown locks c).1 c.prn ∧
      (tracking_channel_ambiguity_unknown locks c).2.nav_msg.bit_polarity
          = BIT_POLARITY_UNKNOWN ∧
      (∀ p, p ≠ c.prn →
        (tracking_channel_ambiguity_unknown locks c).1 p = locks p)) ∧
    (∀ locks c, locks c.prn < 65535 →
      locks c.prn < (tracking_channel_ambiguity_unknown locks c).1 c.prn) ∧
    (∀ lp0 lp1 locks ch prn cf ssc cn0i old,
      (tracking_channel_init lp0 lp1 locks ch prn cf ssc cn0i old).2.1 prn
        = u16wrap (locks prn + 1)) := by
  refine ⟨?_, ?_, ?_⟩
  · intro locks c
    refine ⟨by simp [tracking_channel_ambiguity_unknown],
      by simp [tracking_channel_ambiguity_unknown],
      by simp [tracking_channel_ambiguity_unknown], ?_⟩
    intro p hp
    simp [tracking_channel_ambiguity_unknown, hp]
  · intro locks c h
    have : (tracking_channel_ambiguity_unknown locks c).1 c.prn
        = u16wrap (locks c.prn + 1) := by
      simp [tracking_channel_ambiguity_unknown]
    rw [this]
    unfold u16wrap
    rw [Nat.mod_eq_of_lt (by omega)]
    omega
  · intro lp0 lp1 locks ch prn cf ssc cn0i old
    simp [tracking_channel_init, tracking_channel_ambiguity_unknown]

/-- C2, witness for the amended theorem: a satellite at counter value 7
strictly increases on reset. -/
theorem ambiguity_unknown_lock_counter_witness :
    ((fun _ : Nat => (7 : Nat)) chanBlank.prn < 65535) ∧
    (fun _ : Nat => (7 : Nat)) chanBlank.prn
      < (tracking_channel_ambiguity_unknown (fun _ => 7) chanBlank).1
          chanBlank.prn :=
  ⟨by decide,
   ambiguity_unknown_lock_counter.2.1 (fun _ => 7) chanBlank (by decide)⟩

/-- C9: a `tracking_channel_update` on a channel that is not Running
falls through to the defensive disable: the hardware carrier and code
rates are written to zero (one update write with all-zero arguments), the
state becomes Disabled, and no other channel field is modified. -/
theorem update_not_running_disables :
    ∀ s1ms ch env c, c.state ≠ TrackingState.running →
      tracking_channel_update s1ms ch env c
        = ({ c with state := TrackingState.disabled },
           [Event.trackUpdateWr ch 0 0 0 0]) := by
  intro s1ms ch env c h
  unfold tracking_channel_update tracking_channel_disable
  rw [if_neg h]

/-- C9, witness: a stray update on the blank Disabled channel. -/
theorem update_not_running_disables_witness :
    (chanBlank.state ≠ TrackingState.running) ∧
    tracking_channel_update 5 0 envBlank chanBlank
      = ({ chanBlank with state := TrackingState.disabled },
         [Event.trackUpdateWr 0 0 0 0 0]) :=
  ⟨by decide, update_not_running_disables 5 0 envBlank chanBlank (by decide)⟩


/-! ### Helper lemmas about the update paths -/

lemma bookkeep_state (c : Chan) : (updateBookkeep c).state = c.state := rfl
lemma bookkeep_int_ms (c : Chan) : (updateBookkeep c).int_ms = c.int_ms := rfl
lemma bookkeep_short_cycle (c : Chan) :
    (updateBookkeep c).short_cycle = c.short_cycle := rfl
lemma bookkeep_stage (c : Chan) : (updateBookkeep c).stage = c.stage := rfl
lemma bookkeep_update_count (c : Chan) :
    (updateBookkeep c).update_count = c.update_count := rfl
lemma bookkeep_TOW (c : Chan) :
    (updateBookkeep c).TOW_ms =
      (if c.TOW_ms ≠ TOW_INVALID then
        (c.TOW_ms + (if c.short_cycle then 1 else (c.int_ms : Int) - 1))
          % 604800000
      else c.TOW_ms) := rfl

lemma update_disable_eq (s1ms ch : Nat) (env : UpdateEnv) (c : Chan)
    (h : c.state ≠ TrackingState.running) :
    tracking_channel_update s1ms ch env c
      = ({ c with state := TrackingState.disabled },
         [Event.trackUpdateWr ch 0 0 0 0]) := by
  unfold tracking_channel_update tracking_channel_disable
  rw [if_neg h]

lemma update_running_long_short (s1ms ch : Nat) (env : UpdateEnv) (c : Chan)
    (hrun : c.state = TrackingState.running) (hm : 1 < c.int_ms)
    (hs : c.short_cycle = true) :
    tracking_channel_update s1ms ch env c =
      ({ c with
         sample_count := u32wrap (c.sample_count + c.corr_sample_count),
         code_phase_early := u64wrap
           (c.code_phase_early + c.corr_sample_count * c.code_phase_rate_fp_prev),
         carrier_phase :=
           (if c.update_count = 0 then
             s64wrap (s64wrap (c.carrier_phase
               + c.carrier_freq_fp_prev * (c.corr_sample_count : Int))
               - c.carrier_freq_fp_prev)
           else
             s64wrap (c.carrier_phase
               + c.carrier_freq_fp_prev * (c.corr_sample_count : Int))),
         code_phase_rate_fp_prev := c.code_phase_rate_fp,
         carrier_freq_fp_prev := c.carrier_freq_fp,
         TOW_ms :=
           (if c.TOW_ms ≠ TOW_INVALID then (c.TOW_ms + 1) % 604800000
            else c.TOW_ms),
         short_cycle := false },
       [Event.trackUpdateWr ch c.carrier_freq_fp c.code_phase_rate_fp 0 0]) := by
  simp only [tracking_channel_update, updateBookkeep, hrun, hs, if_true]
  simp [hm, Nat.lt_irrefl]

lemma update_running_nolong (s1ms ch : Nat) (env : UpdateEnv) (c : Chan)
    (hrun : c.state = TrackingState.running) (hn : ¬ 1 < c.int_ms) :
    tracking_channel_update s1ms ch env c
      = updateFull s1ms ch env (updateBookkeep c) := by
  unfold tracking_channel_update
  rw [if_pos hrun]
  have hn2 : ¬ (1 < (updateBookkeep c).int_ms) := by
    rw [bookkeep_int_ms]; exact hn
  rw [if_neg hn2]

lemma update_running_long_full (s1ms ch : Nat) (env : UpdateEnv) (c : Chan)
    (hrun : c.state = TrackingState.running) (hm : 1 < c.int_ms)
    (hs : c.short_cycle = false) :
    tracking_channel_update s1ms ch env c
      = updateFull s1ms ch env
          { updateBookkeep c with short_cycle := true } := by
  unfold tracking_channel_update
  rw [if_pos hrun]
  have hm2 : 1 < (updateBookkeep c).int_ms := by rw [bookkeep_int_ms]; exact hm
  rw [if_pos hm2]
  have hflip : (!(updateBookkeep c).short_cycle) = true := by
    rw [bookkeep_short_cycle, hs]; rfl
  simp only [hflip]
  simp

lemma updateFull_state (s1ms ch : Nat) (env : UpdateEnv) (c : Chan) :
    (updateFull s1ms ch env c).1.state = c.state := rfl
lemma updateFull_update_count (s1ms ch : Nat) (env : UpdateEnv) (c : Chan) :
    (updateFull s1ms ch env c).1.update_count
      = u32wrap (c.update_count + c.int_ms) := rfl
lemma updateFull_nav_msg (s1ms ch : Nat) (env : UpdateEnv) (c : Chan) :
    (updateFull s1ms ch env c).1.nav_msg = env.nav_after := rfl
lemma updateFull_cn0 (s1ms ch : Nat) (env : UpdateEnv) (c : Chan) :
    (updateFull s1ms ch env c).1.cn0 = env.cn0_ret := rfl
lemma updateFull_carrier_freq (s1ms ch : Nat) (env : UpdateEnv) (c : Chan) :
    (updateFull s1ms ch env c).1.carrier_freq = env.tl_after.carr_freq := rfl
lemma updateFull_code_phase_rate (s1ms ch : Nat) (env : UpdateEnv) (c : Chan) :
    (updateFull s1ms ch env c).1.code_phase_rate
      = env.tl_after.code_freq + GPS_CA_CHIPPING_RATE := rfl
lemma updateFull_stage (s1ms ch : Nat) (env : UpdateEnv) (c : Chan) :
    (updateFull s1ms ch env c).1.stage =
      (if c.stage = 0 ∧ c.int_ms = 1 ∧
          env.nav_after.bit_phase = env.nav_after.bit_phase_ref
       then 1 else c.stage) := rfl
lemma updateFull_int_ms (s1ms ch : Nat) (env : UpdateEnv) (c : Chan) :
    (updateFull s1ms ch env c).1.int_ms =
      (if c.stage = 0 ∧ c.int_ms = 1 ∧
          env.nav_after.bit_phase = env.nav_after.bit_phase_ref
       then s1ms else c.int_ms) := rfl
lemma updateFull_short_cycle (s1ms ch : Nat) (env : UpdateEnv) (c : Chan) :
    (updateFull s1ms ch env c).1.short_cycle =
      (if c.stage = 0 ∧ c.int_ms = 1 ∧
          env.nav_after.bit_phase = env.nav_after.bit_phase_ref
       then true else c.short_cycle) := rfl
lemma updateFull_mode_change (s1ms ch : Nat) (env : UpdateEnv) (c : Chan) :
    (updateFull s1ms ch env c).1.mode_change_count =
      (if (c.stage = 0 ∧ c.int_ms = 1 ∧
            env.nav_after.bit_phase = env.nav_after.bit_phase_ref)
          ∨ (c.int_ms ≠ 1 ∧ |env.alias_err| > ((250 / c.int_ms : Nat) : ℚ))
       then u32wrap (c.update_count + c.int_ms)
       else c.mode_change_count) := rfl
lemma updateFull_TOW (s1ms ch : Nat) (env : UpdateEnv) (c : Chan) :
    (updateFull s1ms ch env c).1.TOW_ms =
      (if 0 < env.nav_ret ∧ c.TOW_ms ≠ env.nav_ret then env.nav_ret
       else c.TOW_ms) := rfl

lemma updateFull_last_event (s1ms ch : Nat) (env : UpdateEnv) (c : Chan) :
    (updateFull s1ms ch env c).2.getLast? = some (Event.trackUpdateWr ch
      (updateFull s1ms ch env c).1.carrier_freq_fp
      (updateFull s1ms ch env c).1.code_phase_rate_fp
      (if (updateFull s1ms ch env c).1.int_ms = 1 then 0
       else (updateFull s1ms ch env c).1.int_ms - 2) 0) := by
  unfold updateFull
  exact List.getLast?_concat _

lemma update_stage_mono (s1ms ch : Nat) (env : UpdateEnv) (c : Chan) :
    (tracking_channel_update s1ms ch env c).1.stage = c.stage ∨
    (c.stage = 0 ∧ (tracking_channel_update s1ms ch env c).1.stage = 1) := by
  by_cases hrun : c.state = TrackingState.running
  · by_cases hm : 1 < c.int_ms
    · cases hs : c.short_cycle
      · rw [update_running_long_full s1ms ch env c hrun hm hs, updateFull_stage]
        split_ifs with h
        · exact Or.inr ⟨h.1, rfl⟩
        · exact Or.inl rfl
      · rw [update_running_long_short s1ms ch env c hrun hm hs]
        exact Or.inl rfl
    · rw [update_running_nolong s1ms ch env c hrun hm, updateFull_stage]
      split_ifs with h
      · exact Or.inr ⟨h.1, rfl⟩
      · exact Or.inl rfl
  · rw [update_disable_eq s1ms ch env c hrun]
    exact Or.inl rfl

lemma update_stage_eq_one (s1ms ch : Nat) (env : UpdateEnv) (c : Chan)
    (h : c.stage = 1) :
    (tracking_channel_update s1ms ch env c).1.stage = 1 := by
  rcases update_stage_mono s1ms ch env c with hm | ⟨h0, _⟩
  · rw [hm, h]
  · rw [h] at h0; cases h0

lemma update_fired_char (s1ms ch : Nat) (env : UpdateEnv) (c : Chan)
    (h0 : c.stage = 0)
    (h1 : (tracking_channel_update s1ms ch env c).1.stage = 1) :
    c.state = TrackingState.running ∧ c.int_ms = 1 ∧
    env.nav_after.bit_phase = env.nav_after.bit_phase_ref ∧
    (tracking_channel_update s1ms ch env c).1.int_ms = s1ms ∧
    (tracking_channel_update s1ms ch env c).1.short_cycle = true ∧
    (tracking_channel_update s1ms ch env c).1.mode_change_count
      = (tracking_channel_update s1ms ch env c).1.update_count := by
  by_cases hrun : c.state = TrackingState.running
  · by_cases hm : 1 < c.int_ms
    · cases hs : c.short_cycle
      · rw [update_running_long_full s1ms ch env c hrun hm hs] at h1 ⊢
        rw [updateFull_stage] at h1
        split_ifs at h1 with h
        · have hint : c.int_ms = 1 := h.2.1
          omega
        · have : c.stage = 1 := h1
          rw [h0] at this; cases this
      · rw [update_running_long_short s1ms ch env c hrun hm hs] at h1
        have : c.stage = 1 := h1
        rw [h0] at this; cases this
    · rw [update_running_nolong s1ms ch env c hrun hm] at h1 ⊢
      rw [updateFull_stage] at h1
      split_ifs at h1 with h
      · have hint : c.int_ms = 1 := h.2.1
        have hbit : env.nav_after.bit_phase = env.nav_after.bit_phase_ref := h.2.2
        refine ⟨hrun, hint, hbit, ?_, ?_, ?_⟩
        · rw [updateFull_int_ms, if_pos h]
        · rw [updateFull_short_cycle, if_pos h]
        · rw [updateFull_mode_change, updateFull_update_count,
            if_pos (Or.inl h)]
      · have : c.stage = 1 := h1
        rw [h0] at this; cases this
  · rw [update_disable_eq s1ms ch env c hrun] at h1
    have : c.stage = 1 := h1
    rw [h0] at this; cases this

lemma tracking_run_take_succ (s1ms ch : Nat) (envs : List UpdateEnv)
    (c : Chan) (k : Nat) (hk : k < envs.length) :
    tracking_run s1ms ch (envs.take (k+1)) c
      = (tracking_channel_update s1ms ch envs[k]
          (tracking_run s1ms ch (envs.take k) c)).1 := by
  unfold tracking_run
  rw [List.take_succ, List.getElem?_eq_getElem hk, List.foldl_append]
  rfl

lemma tracking_run_take_of_ge (s1ms ch : Nat) (envs : List UpdateEnv)
    (c : Chan) (k : Nat) (hk : envs.length ≤ k) :
    tracking_run s1ms ch (envs.take k) c = tracking_run s1ms ch envs c := by
  rw [List.take_of_length_le hk]

lemma run_stage_one_from (s1ms ch : Nat) (envs : List UpdateEnv) (c : Chan)
    (i : Nat) :
    ∀ j, i ≤ j →
      (tracking_run s1ms ch (envs.take i) c).stage = 1 →
      (tracking_run s1ms ch (envs.take j) c).stage = 1 := by
  intro j
  induction j with
  | zero =>
    intro hij h
    have : i = 0 := Nat.le_zero.mp hij
    rw [← this]; exact h
  | succ j ih =>
    intro hij h
    rcases Nat.eq_or_lt_of_le hij with heq | hlt
    · rw [heq] at h; exact h
    · have hj : i ≤ j := Nat.lt_succ_iff.mp hlt
      have hstage := ih hj h
      by_cases hk : j < envs.length
      · rw [tracking_run_take_succ s1ms ch envs c j hk]
        exact update_stage_eq_one _ _ _ _ hstage
      · rw [tracking_run_take_of_ge s1ms ch envs c (j+1) (by omega)]
        rw [tracking_run_take_of_ge s1ms ch envs c j (by omega)] at hstage
        exact hstage









/-- C5: along any sequence of `tracking_channel_update` invocations after
one initialisation of a channel, the stage-promotion transition fires at
most once (a 0-to-1 stage flip at step i rules out another flip at any
later step j), and whenever it fires at step k the channel was Running
with `stage = 0` and `coherent_ms = 1` and the decoder's post-update bit
phase equalled its reference; afterwards `stage = 1`, `coherent_ms`
equals the configured stage-1 value, `short_cycle = true`, and
`mode_change_count` equals `update_count`. -/
theorem stage_promotion_once :
    ∀ (lp0 lp1 : loop_params_q) (locks : Nat → Nat) (ch prn : Nat)
      (cf : ℚ) (ssc : Nat) (cn0i : ℚ) (old : Chan) (s1ms chN : Nat)
      (envs : List UpdateEnv) (c0 : Chan),
      c0 = (tracking_channel_init lp0 lp1 locks ch prn cf ssc cn0i old).1 →
      ((∀ i j : Nat, i < j →
        ((tracking_run s1ms chN (envs.take i) c0).stage = 0 ∧
          (tracking_run s1ms chN (envs.take (i+1)) c0).stage = 1) →
        ¬ ((tracking_run s1ms chN (envs.take j) c0).stage = 0 ∧
          (tracking_run s1ms chN (envs.take (j+1)) c0).stage = 1)) ∧
      (∀ k : Nat, ∀ hk : k < envs.length,
        ((tracking_run s1ms chN (envs.take k) c0).stage = 0 ∧
          (tracking_run s1ms chN (envs.take (k+1)) c0).stage = 1) →
        ((tracking_run s1ms chN (envs.take k) c0).state
            = TrackingState.running ∧
         (tracking_run s1ms chN (envs.take k) c0).int_ms = 1 ∧
         envs[k].nav_after.bit_phase = envs[k].nav_after.bit_phase_ref ∧
         (tracking_run s1ms chN (envs.take (k+1)) c0).stage = 1 ∧
         (tracking_run s1ms chN (envs.take (k+1)) c0).int_ms = s1ms ∧
         (tracking_run s1ms chN (envs.take (k+1)) c0).short_cycle = true ∧
         (tracking_run s1ms chN (envs.take (k+1)) c0).mode_change_count
           = (tracking_run s1ms chN (envs.take (k+1)) c0).update_count))) := by
  intro lp0 lp1 locks ch prn cf ssc cn0i old s1ms chN envs c0 _
  constructor
  · rintro i j hij ⟨_, hi1⟩ ⟨hj0, _⟩
    have h1 : (tracking_run s1ms chN (envs.take j) c0).stage = 1 :=
      run_stage_one_from s1ms chN envs c0 (i+1) j hij hi1
    rw [hj0] at h1; cases h1
  · rintro k hk ⟨h0, h1⟩
    rw [tracking_run_take_succ s1ms chN envs c0 k hk] at h1
    obtain ⟨ha, hb, hcbit, hd, he, hf⟩ :=
      update_fired_char s1ms chN envs[k] _ h0 h1
    rw [tracking_run_take_succ s1ms chN envs c0 k hk]
    exact ⟨ha, hb, hcbit, h1, hd, he, hf⟩

/-- C5, witness: one update of a freshly initialised channel with a
bit-synchronised decoder promotes it to stage 1. -/
theorem stage_promotion_once_witness :
    (((tracking_run 5 0 (([envPromoFixture]).take 0) initFixture).stage = 0 ∧
      (tracking_run 5 0 (([envPromoFixture]).take 1) initFixture).stage = 1)) ∧
    ((tracking_run 5 0 (([envPromoFixture]).take 0) initFixture).state
        = TrackingState.running ∧
     (tracking_run 5 0 (([envPromoFixture]).take 0) initFixture).int_ms = 1 ∧
     ([envPromoFixture] : List UpdateEnv)[0].nav_after.bit_phase
        = ([envPromoFixture] : List UpdateEnv)[0].nav_after.bit_phase_ref ∧
     (tracking_run 5 0 (([envPromoFixture]).take 1) initFixture).stage = 1 ∧
     (tracking_run 5 0 (([envPromoFixture]).take 1) initFixture).int_ms = 5 ∧
     (tracking_run 5 0 (([envPromoFixture]).take 1) initFixture).short_cycle
        = true ∧
     (tracking_run 5 0 (([envPromoFixture]).take 1) initFixture).mode_change_count
       = (tracking_run 5 0 (([envPromoFixture]).take 1) initFixture).update_count) :=
  ⟨⟨by decide, by decide⟩,
   (stage_promotion_once lpStage0Fixture lpStage1Fixture (fun _ => 0) 0 3 0 1000
      40 chanBlank 5 0 [envPromoFixture] initFixture rfl).2 0 (by decide)
     ⟨by decide, by decide⟩⟩

lemma bool_eq_false_of_ne_true {b : Bool} (h : ¬ b = true) : b = false := by
  cases b
  · rfl
  · exact absurd rfl h

lemma run_long_invariant (s1ms ch : Nat) (envs : List UpdateEnv) (c : Chan)
    (hrun : c.state = TrackingState.running) (hm : 1 < c.int_ms)
    (hs : c.short_cycle = true) :
    ∀ k, k ≤ envs.length →
      ((tracking_run s1ms ch (envs.take k) c).state = TrackingState.running ∧
       (tracking_run s1ms ch (envs.take k) c).int_ms = c.int_ms ∧
       ((tracking_run s1ms ch (envs.take k) c).short_cycle = true
          ↔ k % 2 = 0)) := by
  intro k
  induction k with
  | zero =>
    intro _
    exact ⟨hrun, rfl, by rw [show envs.take 0 = [] from rfl]; simp [tracking_run, hs]⟩
  | succ k ih =>
    intro hk1
    have hk : k < envs.length := by omega
    obtain ⟨hst, him, hsc⟩ := ih (by omega)
    rw [tracking_run_take_succ s1ms ch envs c k hk]
    set ck := tracking_run s1ms ch (envs.take k) c with hck
    have hmk : 1 < ck.int_ms := by rw [him]; exact hm
    by_cases hev : ck.short_cycle = true
    · have hk0 : k % 2 = 0 := hsc.mp hev
      rw [update_running_long_short s1ms ch envs[k] ck hst hmk hev]
      refine ⟨hst, him, ?_, ?_⟩
      · intro hfalse
        exact absurd (show (false : Bool) = true from hfalse) (by decide)
      · intro hmod
        exact absurd hmod (by omega)
    · have hev' : ck.short_cycle = false := bool_eq_false_of_ne_true hev
      have hk1' : k % 2 = 1 := by
        rcases Nat.mod_two_eq_zero_or_one k with h | h
        · exact absurd (hsc.mpr h) hev
        · exact h
      rw [update_running_long_full s1ms ch envs[k] ck hst hmk hev']
      have hpromo : ¬ (({ updateBookkeep ck with short_cycle := true }).stage = 0 ∧
          ({ updateBookkeep ck with short_cycle := true }).int_ms = 1 ∧
          envs[k].nav_after.bit_phase = envs[k].nav_after.bit_phase_ref) := by
        rintro ⟨-, h2, -⟩
        have h3 : ck.int_ms = 1 := h2
        omega
      refine ⟨?_, ?_, ?_⟩
      · rw [updateFull_state]
        exact hst
      · rw [updateFull_int_ms, if_neg hpromo]
        exact him
      · rw [updateFull_short_cycle, if_neg hpromo]
        constructor
        · intro _
          omega
        · intro _
          rfl

/-- C1: for a Running channel, the heavy half of the update pipeline runs
exactly on the cycles where a full coherent sum is available.  With
`coherent_ms = 1` every call runs the full pipeline (`update_count`
advances by `coherent_ms`, the decoder, C/N0 and loop-filter results are
adopted, and the final hardware write carries the new rates).  With
`coherent_ms > 1` and `short_cycle` set, the call only does sample,
phase and TOW bookkeeping, flips `short_cycle`, and issues exactly one
hardware update write with the already-current fixed-point rates and
zero flags — stated as a full structure equality, so every other field
(decoder, C/N0, loop filter, stage, counters) is untouched; with
`short_cycle` clear, the full pipeline runs and `short_cycle` flips back.
Over any run with `coherent_ms > 1` starting on a short cycle, the heavy
half therefore runs on exactly every second call (odd steps). -/
theorem update_half_pipeline :
    (∀ (s1ms ch : Nat) (env : UpdateEnv) (c : Chan),
      c.state = TrackingState.running → c.int_ms = 1 →
      ((tracking_channel_update s1ms ch env c).1.update_count
          = u32wrap (c.update_count + c.int_ms) ∧
       (tracking_channel_update s1ms ch env c).1.nav_msg = env.nav_after ∧
       (tracking_channel_update s1ms ch env c).1.cn0 = env.cn0_ret ∧
       (tracking_channel_update s1ms ch env c).1.carrier_freq
          = env.tl_after.carr_freq ∧
       (tracking_channel_update s1ms ch env c).1.code_phase_rate
          = env.tl_after.code_freq + GPS_CA_CHIPPING_RATE ∧
       (tracking_channel_update s1ms ch env c).2.getLast?
          = some (Event.trackUpdateWr ch
              (tracking_channel_update s1ms ch env c).1.carrier_freq_fp
              (tracking_channel_update s1ms ch env c).1.code_phase_rate_fp
              (if (tracking_channel_update s1ms ch env c).1.int_ms = 1 then 0
               else (tracking_channel_update s1ms ch env c).1.int_ms - 2) 0))) ∧
    (∀ (s1ms ch : Nat) (env : UpdateEnv) (c : Chan),
      c.state = TrackingState.running → 1 < c.int_ms → c.short_cycle = true →
      tracking_channel_update s1ms ch env c =
        ({ c with
           sample_count := u32wrap (c.sample_count + c.corr_sample_count),
           code_phase_early := u64wrap (c.code_phase_early
             + c.corr_sample_count * c.code_phase_rate_fp_prev),
           carrier_phase :=
             (if c.update_count = 0 then
               s64wrap (s64wrap (c.carrier_phase
                 + c.carrier_freq_fp_prev * (c.corr_sample_count : Int))
                 - c.carrier_freq_fp_prev)
             else
               s64wrap (c.carrier_phase
                 + c.carrier_freq_fp_prev * (c.corr_sample_count : Int))),
           code_phase_rate_fp_prev := c.code_phase_rate_fp,
           carrier_freq_fp_prev := c.carrier_freq_fp,
           TOW_ms :=
             (if c.TOW_ms ≠ TOW_INVALID then (c.TOW_ms + 1) % 604800000
              else c.TOW_ms),
           short_cycle := false },
         [Event.trackUpdateWr ch c.carrier_freq_fp c.code_phase_rate_fp 0 0])) ∧
    (∀ (s1ms ch : Nat) (env : UpdateEnv) (c : Chan),
      c.state = TrackingState.running → 1 < c.int_ms → c.short_cycle = false →
      ((tracking_channel_update s1ms ch env c).1.update_count
          = u32wrap (c.update_count + c.int_ms) ∧
       (tracking_channel_update s1ms ch env c).1.nav_msg = env.nav_after ∧
       (tracking_channel_update s1ms ch env c).1.cn0 = env.cn0_ret ∧
       (tracking_channel_update s1ms ch env c).1.short_cycle = true ∧
       (tracking_channel_update s1ms ch env c).2.getLast?
          = some (Event.trackUpdateWr ch
              (tracking_channel_update s1ms ch env c).1.carrier_freq_fp
              (tracking_channel_update s1ms ch env c).1.code_phase_rate_fp
              (if (tracking_channel_update s1ms ch env c).1.int_ms = 1 then 0
               else (tracking_channel_update s1ms ch env c).1.int_ms - 2) 0))) ∧
    (∀ (s1ms ch : Nat) (envs : List UpdateEnv) (c : Chan) (k : Nat),
      c.state = TrackingState.running → 1 < c.int_ms → c.short_cycle = true →
      k < envs.length →
      (((tracking_run s1ms ch (envs.take k) c).short_cycle = true ↔ k % 2 = 0) ∧
       (tracking_run s1ms ch (envs.take (k+1)) c).update_count =
         (if k % 2 = 0 then (tracking_run s1ms ch (envs.take k) c).update_count
          else u32wrap ((tracking_run s1ms ch (envs.take k) c).update_count
            + c.int_ms)))) := by
  refine ⟨?_, ?_, ?_, ?_⟩
  · intro s1ms ch env c hrun h1
    rw [update_running_nolong s1ms ch env c hrun (by omega)]
    exact ⟨rfl, rfl, rfl, rfl, rfl, updateFull_last_event s1ms ch env _⟩
  · intro s1ms ch env c hrun hm hs
    exact update_running_long_short s1ms ch env c hrun hm hs
  · intro s1ms ch env c hrun hm hs
    rw [update_running_long_full s1ms ch env c hrun hm hs]
    have hpromo : ¬ (({ updateBookkeep c with short_cycle := true }).stage = 0 ∧
        ({ updateBookkeep c with short_cycle := true }).int_ms = 1 ∧
        env.nav_after.bit_phase = env.nav_after.bit_phase_ref) := by
      rintro ⟨-, h2, -⟩
      have h3 : c.int_ms = 1 := h2
      omega
    refine ⟨rfl, rfl, rfl, ?_, updateFull_last_event s1ms ch env _⟩
    rw [updateFull_short_cycle, if_neg hpromo]
  · intro s1ms ch envs c k hrun hm hs hk
    obtain ⟨hst, him, hsc⟩ :=
      run_long_invariant s1ms ch envs c hrun hm hs k (by omega)
    refine ⟨hsc, ?_⟩
    rw [tracking_run_take_succ s1ms ch envs c k hk]
    set ck := tracking_run s1ms ch (envs.take k) c with hck
    have hmk : 1 < ck.int_ms := by rw [him]; exact hm
    by_cases hpar : k % 2 = 0
    · have hev : ck.short_cycle = true := hsc.mpr hpar
      rw [update_running_long_short s1ms ch envs[k] ck hst hmk hev,
        if_pos hpar]
    · have hev : ck.short_cycle = false := by
        rcases Nat.mod_two_eq_zero_or_one k with h | h
        · exact absurd h hpar
        · exact bool_eq_false_of_ne_true (fun hx => hpar (hsc.mp hx))
      rw [update_running_long_full s1ms ch envs[k] ck hst hmk hev,
        if_neg hpar, updateFull_update_count]
      show u32wrap (ck.update_count + ck.int_ms)
        = u32wrap (ck.update_count + c.int_ms)
      rw [him]







/-- C1, witness: a short-half call on a Running 5 ms channel leaves
`update_count` alone, clears `short_cycle`, and issues exactly one
hardware write with the current fixed-point rates. -/
theorem update_half_pipeline_witness :
    (chanRunLong.state = TrackingState.running ∧ 1 < chanRunLong.int_ms ∧
      chanRunLong.short_cycle = true) ∧
    ((tracking_channel_update 5 0 envBlank chanRunLong).1.short_cycle = false ∧
     (tracking_channel_update 5 0 envBlank chanRunLong).1.update_count
        = chanRunLong.update_count ∧
     (tracking_channel_update 5 0 envBlank chanRunLong).2
        = [Event.trackUpdateWr 0 chanRunLong.carrier_freq_fp
            chanRunLong.code_phase_rate_fp 0 0]) := by
  refine ⟨⟨rfl, by decide, rfl⟩, ?_, ?_, ?_⟩ <;>
    rw [update_half_pipeline.2.1 5 0 envBlank chanRunLong rfl (by decide) rfl]

lemma update_noadopt_TOW (s1ms ch : Nat) (env : UpdateEnv) (c : Chan)
    (hna : env.nav_ret ≤ 0) :
    (updateFull s1ms ch env c).1.TOW_ms = c.TOW_ms := by
  rw [updateFull_TOW, if_neg]
  rintro ⟨h1, -⟩
  omega

/-- C6: on every update of a Running channel with a known TOW, the TOW
advances by 1 ms on a short cycle and `coherent_ms - 1` ms on a full
cycle, reduced modulo 604800000 (one week); starting from a known TOW0,
N consecutive updates of a 1 ms channel whose decoder supplies no TOW
candidate (every such update is a short-cycle update: `short_cycle`
stays true) yield `TOW_ms = (TOW0 + N) mod 604800000`; and an INVALID
TOW stays INVALID until the decoder supplies one. -/
theorem tow_advance :
    (∀ (s1ms ch : Nat) (env : UpdateEnv) (c : Chan),
      c.state = TrackingState.running → 1 < c.int_ms → c.short_cycle = true →
      c.TOW_ms ≠ TOW_INVALID →
      (tracking_channel_update s1ms ch env c).1.TOW_ms
        = (c.TOW_ms + 1) % 604800000) ∧
    (∀ (s1ms ch : Nat) (env : UpdateEnv) (c : Chan),
      c.state = TrackingState.running →
      (c.int_ms = 1 ∨ (1 < c.int_ms ∧ c.short_cycle = false)) →
      c.TOW_ms ≠ TOW_INVALID → env.nav_ret ≤ 0 →
      (tracking_channel_update s1ms ch env c).1.TOW_ms
        = (c.TOW_ms + (if c.short_cycle then 1 else (c.int_ms : Int) - 1))
            % 604800000) ∧
    (∀ (s1ms ch : Nat) (envs : List UpdateEnv) (c : Chan) (t : Int),
      c.state = TrackingState.running → c.int_ms = 1 → c.short_cycle = true →
      c.TOW_ms = t → 0 ≤ t → t < 604800000 →
      (∀ e ∈ envs, e.nav_ret ≤ 0 ∧
        e.nav_after.bit_phase ≠ e.nav_after.bit_phase_ref) →
      (tracking_run s1ms ch envs c).TOW_ms
        = (t + envs.length) % 604800000) ∧
    (∀ (s1ms ch : Nat) (env : UpdateEnv) (c : Chan),
      c.state = TrackingState.running → c.TOW_ms = TOW_INVALID →
      env.nav_ret ≤ 0 →
      (tracking_channel_update s1ms ch env c).1.TOW_ms = TOW_INVALID) := by
  refine ⟨?_, ?_, ?_, ?_⟩
  · intro s1ms ch env c hrun hm hs ht
    rw [update_running_long_short s1ms ch env c hrun hm hs]
    show (if c.TOW_ms ≠ TOW_INVALID then (c.TOW_ms + 1) % 604800000
          else c.TOW_ms) = _
    rw [if_pos ht]
  · intro s1ms ch env c hrun hcase ht hna
    rcases hcase with h1 | ⟨hm, hs⟩
    · rw [update_running_nolong s1ms ch env c hrun (by omega),
        update_noadopt_TOW s1ms ch env _ hna, bookkeep_TOW, if_pos ht]
    · rw [update_running_long_full s1ms ch env c hrun hm hs,
        update_noadopt_TOW s1ms ch env _ hna]
      show (updateBookkeep c).TOW_ms = _
      rw [bookkeep_TOW, if_pos ht]
  · intro s1ms ch envs
    induction envs with
    | nil =>
      intro c t _ _ _ ht h0 hw _
      show c.TOW_ms = _
      rw [ht]
      simp only [List.length_nil, Nat.cast_zero, Int.add_zero]
      omega
    | cons e es ih =>
      intro c t hrun h1 hs ht h0 hw henvs
      obtain ⟨hena, henb⟩ := henvs e (List.mem_cons_self e es)
      have hstep : tracking_run s1ms ch (e :: es) c
          = tracking_run s1ms ch es (tracking_channel_update s1ms ch e c).1 :=
        rfl
      rw [hstep, update_running_nolong s1ms ch e c hrun (by omega)]
      have hpromo : ¬ ((updateBookkeep c).stage = 0 ∧
          (updateBookkeep c).int_ms = 1 ∧
          e.nav_after.bit_phase = e.nav_after.bit_phase_ref) := by
        rintro ⟨-, -, hb⟩
        exact henb hb
      have htval : c.TOW_ms ≠ TOW_INVALID := by
        rw [ht]; unfold TOW_INVALID; omega
      have htow : (updateFull s1ms ch e (updateBookkeep c)).1.TOW_ms
          = (t + 1) % 604800000 := by
        rw [update_noadopt_TOW s1ms ch e _ hena, bookkeep_TOW, if_pos htval,
          ht, if_pos hs]
      have hres := ih (updateFull s1ms ch e (updateBookkeep c)).1
        ((t + 1) % 604800000)
        (by rw [updateFull_state, bookkeep_state]; exact hrun)
        (by rw [updateFull_int_ms, if_neg hpromo, bookkeep_int_ms]; exact h1)
        (by rw [updateFull_short_cycle, if_neg hpromo, bookkeep_short_cycle]
            exact hs)
        htow
        (Int.emod_nonneg _ (by norm_num))
        (Int.emod_lt_of_pos _ (by norm_num))
        (fun e' he' => henvs e' (List.mem_cons_of_mem e he'))
      rw [hres]
      simp only [List.length_cons]
      push_cast
      omega
  · intro s1ms ch env c hrun ht hna
    by_cases hm : 1 < c.int_ms
    · cases hs : c.short_cycle
      · rw [update_running_long_full s1ms ch env c hrun hm hs,
          update_noadopt_TOW s1ms ch env _ hna]
        show (updateBookkeep c).TOW_ms = _
        rw [bookkeep_TOW, if_neg (by rw [ht]; exact fun h => h rfl)]
        exact ht
      · rw [update_running_long_short s1ms ch env c hrun hm hs]
        show (if c.TOW_ms ≠ TOW_INVALID then (c.TOW_ms + 1) % 604800000
              else c.TOW_ms) = _
        rw [if_neg (by rw [ht]; exact fun h => h rfl)]
        exact ht
    · rw [update_running_nolong s1ms ch env c hrun hm,
        update_noadopt_TOW s1ms ch env _ hna, bookkeep_TOW,
        if_neg (by rw [ht]; exact fun h => h rfl)]
      exact ht

/-- C6, witness: two silent updates of a 1 ms channel advance a known
TOW of 5 ms to (5 + 2) mod 604800000. -/
theorem tow_advance_witness :
    (chanRun1.state = TrackingState.running ∧ chanRun1.int_ms = 1 ∧
      chanRun1.short_cycle = true ∧ chanRun1.TOW_ms = 5 ∧
      (0 : Int) ≤ 5 ∧ (5 : Int) < 604800000 ∧
      (∀ e ∈ [envBlank, envBlank], e.nav_ret ≤ 0 ∧
        e.nav_after.bit_phase ≠ e.nav_after.bit_phase_ref)) ∧
    (tracking_run 5 0 [envBlank, envBlank] chanRun1).TOW_ms
      = (5 + ([envBlank, envBlank] : List UpdateEnv).length) % 604800000 :=
  ⟨⟨rfl, rfl, rfl, rfl, by decide, by decide, by decide⟩,
   tow_advance.2.2.1 5 0 [envBlank, envBlank] chanRun1 5 rfl rfl rfl rfl
     (by decide) (by decide) (by decide)⟩





/-- C7, evaluation at the failing input: on a full cycle the decoder
returns the TOW candidate 0 — a valid time of week per the claim and the
code's own comment — differing from the channel's (bookkept) TOW of 6,
yet the channel keeps 6 because the adoption guard is `TOW_ms > 0`,
excluding 0.  For comparison, the nonzero candidate 42 is adopted with a
mismatch log when a TOW was known, and adopted silently (the only event
being the final hardware write) when the previous TOW was INVALID; the
claim holds for every candidate except 0. -/
theorem tow_zero_candidate_ignored :
    (envBlank.nav_ret = 0 ∧ chanRun1.TOW_ms = 5 ∧
      (tracking_channel_update 5 0 envBlank chanRun1).1.TOW_ms = 6) ∧
    ((tracking_channel_update 5 0 envTow42 chanRun1).1.TOW_ms = 42 ∧
      Event.logErrorTowMismatch chanRun1.prn 6 42
        ∈ (tracking_channel_update 5 0 envTow42 chanRun1).2) ∧
    ((tracking_channel_update 5 0 envTow42 chanRunInvalid).1.TOW_ms = 42 ∧
      (tracking_channel_update 5 0 envTow42 chanRunInvalid).2.length = 1) :=
  ⟨⟨rfl, rfl, by decide⟩, ⟨by decide, by decide⟩, ⟨by decide, by decide⟩⟩

/-- C8: `tracking_update_measurement` is a pure snapshot (it returns a
measurement and leaves the channel untouched by construction); the
produced carrier phase equals the fixed-point accumulator divided by
2^24 plus 0.5 cycles exactly when the decoder's bit polarity is flagged
inverted, and changing only the polarity flag changes only the
`carrier_phase` field: satellite id, code phase, code phase rate,
carrier frequency, TOW, receiver time, SNR and lock counter are all
unchanged. -/
theorem measurement_polarity :
    ∀ (c : Chan) (b : Int),
      ((tracking_update_measurement c).carrier_phase
          = (c.carrier_phase : ℚ) / 2^24 + 1/2
        ↔ c.nav_msg.bit_polarity = BIT_POLARITY_INVERTED) ∧
      ((tracking_update_measurement
          { c with nav_msg := { c.nav_msg with bit_polarity := b } }).prn
          = (tracking_update_measurement c).prn ∧
       (tracking_update_measurement
          { c with nav_msg := { c.nav_msg with bit_polarity := b } }).code_phase_chips
          = (tracking_update_measurement c).code_phase_chips ∧
       (tracking_update_measurement
          { c with nav_msg := { c.nav_msg with bit_polarity := b } }).code_phase_rate
          = (tracking_update_measurement c).code_phase_rate ∧
       (tracking_update_measurement
          { c with nav_msg := { c.nav_msg with bit_polarity := b } }).carrier_freq
          = (tracking_update_measurement c).carrier_freq ∧
       (tracking_update_measurement
          { c with nav_msg := { c.nav_msg with bit_polarity := b } }).time_of_week_ms
          = (tracking_update_measurement c).time_of_week_ms ∧
       (tracking_update_measurement
          { c with nav_msg := { c.nav_msg with bit_polarity := b } }).receiver_time
          = (tracking_update_measurement c).receiver_time ∧
       (tracking_update_measurement
          { c with nav_msg := { c.nav_msg with bit_polarity := b } }).snr
          = (tracking_update_measurement c).snr ∧
       (tracking_update_measurement
          { c with nav_msg := { c.nav_msg with bit_polarity := b } }).lock_counter
          = (tracking_update_measurement c).lock_counter) := by
  intro c b
  constructor
  · by_cases h : c.nav_msg.bit_polarity = BIT_POLARITY_INVERTED
    · simp [tracking_update_measurement, h]
    · simp [tracking_update_measurement, h, self_eq_add_right]
  · exact ⟨rfl, rfl, rfl, rfl, rfl, rfl, rfl, rfl⟩

/-- C8, witness: a channel flagged inverted yields a carrier phase with
the +0.5 cycle offset. -/
theorem measurement_polarity_witness :
    (chanInvFixture.nav_msg.bit_polarity = BIT_POLARITY_INVERTED) ∧
    (tracking_update_measurement chanInvFixture).carrier_phase
      = (chanInvFixture.carrier_phase : ℚ) / 2^24 + 1/2 :=
  ⟨by decide, (measurement_polarity chanInvFixture 0).1.mpr (by decide)⟩



/-- C4: `parse_loop_params` rejects exactly when the sscanf grammar of
either stage is malformed or some stage's (u8-truncated) `coherent_ms`
is 0 or does not divide 20 or stage 0's differs from 1; on every
rejection the active configuration and stored settings string are left
completely unchanged; and when a valid string omits the second stage
(the first stage's `%n` never fired), the two stored stages are
identical. -/
theorem parse_loop_params_spec :
    ∀ (val : String) (cfg : TrackSettings),
      (((parse_loop_params val cfg).1 = false) ↔ ¬ loop_params_accepted val) ∧
      ((parse_loop_params val cfg).1 = false →
        (parse_loop_params val cfg).2 = cfg) ∧
      (∀ p0, scanStage val.data = some (p0, none) →
        (parse_loop_params val cfg).1 = true →
        (parse_loop_params val cfg).2.stage0
          = (parse_loop_params val cfg).2.stage1) := by
  intro val cfg
  rcases h0 : scanStage val.data with _ | ⟨p0, n0⟩
  · refine ⟨?_, ?_, ?_⟩
    · simp only [parse_loop_params, h0]
      constructor
      · rintro - ⟨q0, m0, hsc, -⟩
        rw [h0] at hsc; cases hsc
      · intro _; trivial
    · intro _
      simp only [parse_loop_params, h0]
    · intro q0 hsc
      cases hsc
  · by_cases hc0 : p0.coherent_ms = 0 ∨ 20 % p0.coherent_ms ≠ 0 ∨
        p0.coherent_ms ≠ 1
    · refine ⟨?_, ?_, ?_⟩
      · simp only [parse_loop_params, h0, if_pos hc0]
        constructor
        · rintro - ⟨q0, m0, hsc, hq0, -⟩
          rw [h0] at hsc
          injection hsc with hpair
          injection hpair with hp hn
          rw [← hp] at hq0
          exact hq0 hc0
        · intro _; trivial
      · intro _
        simp only [parse_loop_params, h0, if_pos hc0]
      · intro q0 hsc htrue
        simp only [parse_loop_params, h0, if_pos hc0] at htrue
        cases htrue
    · rcases h1 : scanStage (stage2_input val n0) with _ | ⟨p1, r1⟩
      · refine ⟨?_, ?_, ?_⟩
        · simp only [parse_loop_params, h0, if_neg hc0, h1]
          constructor
          · rintro - ⟨q0, m0, hsc, hq0, q1, s1, hsc1, -⟩
            rw [h0] at hsc
            injection hsc with hpair
            injection hpair with hp hn
            rw [← hn] at hsc1
            rw [h1] at hsc1
            cases hsc1
          · intro _; trivial
        · intro _
          simp only [parse_loop_params, h0, if_neg hc0, h1]
        · intro q0 hsc htrue
          simp only [parse_loop_params, h0, if_neg hc0, h1] at htrue
          cases htrue
      · by_cases hc1 : p1.coherent_ms = 0 ∨ 20 % p1.coherent_ms ≠ 0
        · refine ⟨?_, ?_, ?_⟩
          · simp only [parse_loop_params, h0, if_neg hc0, h1, if_pos hc1]
            constructor
            · rintro - ⟨q0, m0, hsc, hq0, q1, s1, hsc1, hq1⟩
              rw [h0] at hsc
              injection hsc with hpair
              injection hpair with hp hn
              rw [← hn] at hsc1
              rw [h1] at hsc1
              injection hsc1 with hpair1
              injection hpair1 with hp1 hn1
              rw [← hp1] at hq1
              exact hq1 hc1
            · intro _; trivial
          · intro _
            simp only [parse_loop_params, h0, if_neg hc0, h1, if_pos hc1]
          · intro q0 hsc htrue
            simp only [parse_loop_params, h0, if_neg hc0, h1, if_pos hc1]
              at htrue
            cases htrue
        · refine ⟨?_, ?_, ?_⟩
          · simp only [parse_loop_params, h0, if_neg hc0, h1, if_neg hc1]
            constructor
            · intro hfalse
              cases hfalse
            · intro hnacc
              exact absurd ⟨p0, n0, h0, hc0, p1, r1, h1, hc1⟩ hnacc
          · intro hfalse
            simp only [parse_loop_params, h0, if_neg hc0, h1, if_neg hc1]
              at hfalse
            cases hfalse
          · intro q0 hsc _
            simp only [parse_loop_params, h0, if_neg hc0, h1, if_neg hc1]
            injection hsc with hpair
            injection hpair with hp hn
            rw [hn] at h1
            rw [show stage2_input val none = val.data from rfl, h0] at h1
            simp only [Option.some.injEq, Prod.mk.injEq] at h1
            exact h1.1

/-- C4, witness: a malformed string is rejected leaving the blank
configuration unchanged, and the spec's one-stage example string is
accepted with identical parameters applied to both stages. -/
theorem parse_loop_params_spec_witness :
    (((parse_loop_params "garbage" cfgBlank).1 = false) ∧
      (parse_loop_params "garbage" cfgBlank).2 = cfgBlank) ∧
    ((scanStage valOneStage.data).map Prod.snd = some none ∧
      (parse_loop_params valOneStage cfgBlank).1 = true ∧
      (parse_loop_params valOneStage cfgBlank).2.stage0
        = (parse_loop_params valOneStage cfgBlank).2.stage1) := by
  refine ⟨⟨by decide, (parse_loop_params_spec "garbage" cfgBlank).2.1 (by decide)⟩,
    by decide, by decide, ?_⟩
  have h := (scanStage valOneStage.data).map Prod.fst
  rcases hsc : scanStage valOneStage.data with _ | ⟨q0, m0⟩
  · exact absurd hsc (by decide)
  · have hm0 : m0 = none := by
      have := hsc ▸ (show (scanStage valOneStage.data).map Prod.snd = some none
        from by decide)
      simpa using this
    rw [hm0] at hsc
    exact (parse_loop_params_spec valOneStage cfgBlank).2.2 q0 hsc (by decide)

end Piksi
